import Mathlib

/-!
Shallow embedding of the ACH payments modules of the Alumicraft/payments
repository, together with proofs about the embedded operations.

Files embedded (all paths relative to the repository root):
  payments/payments/doctype/ach_transaction/ach_transaction.py
  payments/payments/doctype/ach_authorization/ach_authorization.py
  payments/api/achq_integration.py
  payments/tasks/scheduled_debits.py
  payments_for_lending_app/payments_for_lending/doctype/ach_authorization/ach_authorization.py
  payments_for_lending_app/payments_for_lending/api/achq_integration.py

Modelling conventions:
  - Dates and datetimes are integers (day numbers / timestamps); the frappe
    helpers add_days(d, n) and today() / now_datetime() become integer
    arithmetic over fields of an explicit environment record.
  - Python strings that may be None are Option String; Python truthiness of
    a string value (None and the empty string are falsy) is truthyStr below.
  - The frappe document store becomes an explicit DB record holding lists of
    documents; frappe.db.get_value / frappe.db.exists become List.find? /
    List.any; doc.save() becomes a map-replace by document name, running the
    document's validate hook first, exactly as the framework does;
    doc.insert() appends a document with a fresh autogenerated name, also
    running validate with is_new true.
  - frappe.throw is modelled with Except String; a caught exception
    (try/except per work item in the scheduler sweeps, the try/except of
    create_payment_entry and send_notification) leaves the affected state
    unchanged for that item.
  - Fields the claims never touch (authorization_ip, authorization_date,
    token_source, consent metadata, docstatus) are left out of the records;
    no embedded operation reads them.
-/

namespace Payments

/-- Internal transaction statuses (the select options of ACH Transaction). -/
inductive TxnStatus
  | Scheduled
  | Initiated
  | Processing
  | Success
  | Returned
  | Failed
  | Cancelled
  deriving DecidableEq, Repr

/-- Authorization statuses (the select options of ACH Authorization). -/
inductive AuthStatus
  | Active
  | Paused
  | Revoked
  deriving DecidableEq, Repr

/-- Python truthiness of an optional string: None and the empty string are falsy. -/
def truthyStr : Option String → Bool
  | none => false
  | some s => s ≠ ""

/-- Python `a or b` for an optional string and a string default. -/
def orElseStr (o : Option String) (d : String) : String :=
  match o with
  | some s => if s = "" then d else s
  | none => d

/-- Python str.lower(), over the character list (ASCII-adequate for the
status vocabulary involved). -/
def pyLower (s : String) : String :=
  String.mk (s.data.map Char.toLower)

/-- Python str.strip(): remove leading and trailing whitespace. -/
def pyStrip (s : String) : String :=
  String.mk (((s.data.dropWhile Char.isWhitespace).reverse.dropWhile
    Char.isWhitespace).reverse)

/-- Python str.isdigit(): nonempty and all characters are digits. -/
def pyIsDigit (s : String) : Bool :=
  s ≠ "" ∧ s.data.all Char.isDigit

/-- The source's `x[-4:] if len(x) >= 4 else x` masking of an identifier. -/
def last4 (s : String) : String :=
  if s.length ≥ 4 then String.mk (s.data.drop (s.length - 4)) else s

/-- ACH Transaction document (the fields the embedded operations touch). -/
structure ACHTransaction where
  name : String
  achAuthorization : String
  loan : String
  customer : String
  amount : Int
  status : TxnStatus
  scheduledDate : Int
  achqTransactionId : Option String
  achqStatus : Option String
  failureCode : Option String
  failureReason : Option String
  returnCode : Option String
  retryAttempt : Nat
  maxRetries : Nat
  nextRetryDate : Option Int
  originalTransaction : Option String
  initiatedDate : Option Int
  completedDate : Option Int
  settlementDate : Option Int
  paymentEntry : Option String
  notificationSent : Bool
  deriving DecidableEq, Repr

/-- ACH Authorization document. The single-binding app binds an authorization
to a loan; the multi-account app uses a customer-level default flag. One
record type carries both fields. -/
structure ACHAuthorization where
  name : String
  customer : String
  loan : Option String
  isDefault : Bool
  status : AuthStatus
  bankName : String
  accountType : String
  bankAccountLast4 : String
  routingNumberLast4 : String
  achqToken : Option String
  verificationStatus : String
  consentCaptured : Bool
  secCode : String
  deriving DecidableEq, Repr

/-- Payment Entry (the settlement record created on success). -/
structure PaymentEntry where
  name : String
  referenceNo : String
  party : String
  paidAmount : Int
  deriving DecidableEq, Repr

/-- Loan document (only the fields the ACH modules read). -/
structure Loan where
  name : String
  applicant : String
  achPaymentAccount : Option String
  deriving DecidableEq, Repr

/-- ACH Settings singleton. -/
structure ACHSettings where
  enableAchAutopay : Bool
  maxRetryAttempts : Nat
  retryDelayDays : Int
  sendSuccessNotification : Bool
  sendFailureNotification : Bool
  sendUpcomingDebitNotification : Bool
  allowUnknownAccounts : Bool
  defaultSecCode : String
  defaultCheckType : Option String
  deriving Repr, DecidableEq

/-- Ambient environment: the settings singleton, the clock, and the external
collaborators (customer e-mail lookup, e-mail delivery, the accounting data
needed by Payment Entry creation). -/
structure Env where
  settings : ACHSettings
  today : Int
  now : Int
  customerEmail : String → Option String
  emailOk : Bool
  loanExists : String → Bool
  paymentEntryCreationOk : Bool

/-- The document store: all documents the embedded operations read or write,
a counter used for autogenerated names, and the log of e-mails actually
handed to the mail collaborator (pairs of transaction name and template
kind). -/
structure DB where
  txns : List ACHTransaction
  auths : List ACHAuthorization
  loans : List Loan
  paymentEntries : List PaymentEntry
  sentEmails : List (String × String)
  seq : Nat
  deriving Repr, DecidableEq

/-- frappe.db.get_value("ACH Authorization", name, "status"). -/
def DB.authStatus (db : DB) (name : String) : Option AuthStatus :=
  (db.auths.find? (fun a => a.name = name)).map (fun a => a.status)

/-- frappe.db.get_value("ACH Authorization", name, "customer"). -/
def authCustomer (auths : List ACHAuthorization) (name : String) : Option String :=
  (auths.find? (fun a => a.name = name)).map (fun a => a.customer)

/-- frappe.db.get_value("Loan", name, "applicant"). -/
def loanApplicant (loans : List Loan) (name : String) : Option String :=
  (loans.find? (fun l => l.name = name)).map (fun l => l.applicant)

/-- The structured status of a stored transaction, by name. -/
def DB.txnStatus (db : DB) (name : String) : Option TxnStatus :=
  (db.txns.find? (fun t => t.name = name)).map (fun t => t.status)

/-- Number of stored Payment Entries whose reference_no is the given
transaction name. -/
def countPaymentEntries (db : DB) (ref : String) : Nat :=
  (db.paymentEntries.filter (fun pe => pe.referenceNo = ref)).length

/-- Number of e-mails actually handed to the mail collaborator for the given
transaction name. -/
def countSentEmails (db : DB) (name : String) : Nat :=
  (db.sentEmails.filter (fun p => p.1 = name)).length

/-- ACHTransaction._set_customer_from_authorization: on every save, if the
transaction has an authorization but no customer, copy the authorization's
customer (frappe.db.get_value returns None when the record is missing,
which the assignment leaves as a falsy customer, modelled by the empty
string). -/
def setCustomerFromAuthorization (auths : List ACHAuthorization) (txn : ACHTransaction) :
    ACHTransaction :=
  if txn.achAuthorization ≠ "" ∧ txn.customer = "" then
    { txn with customer := (authCustomer auths txn.achAuthorization).getD "" }
  else
    txn

/-- ACHTransaction._set_max_retries_from_settings: on insert only (is_new),
if max_retries is falsy (zero), take it from ACH Settings. -/
def setMaxRetriesFromSettings (settings : ACHSettings) (txn : ACHTransaction) :
    ACHTransaction :=
  if txn.maxRetries = 0 then { txn with maxRetries := settings.maxRetryAttempts } else txn

/-- doc.save() for an ACH Transaction: run the validate hook (is_new is false,
so only the customer backfill applies), then replace every stored document of
that name. Returns the saved (validated) document, since frappe mutates the
in-memory document in place. -/
def DB.saveTxn (db : DB) (txn : ACHTransaction) : DB × ACHTransaction :=
  let v := setCustomerFromAuthorization db.auths txn
  ({ db with txns := db.txns.map (fun t => if t.name = v.name then v else t) }, v)

/-- doc.insert() for an ACH Transaction: run validate with is_new true,
assign the autogenerated name, and append. -/
def DB.insertTxn (db : DB) (env : Env) (txn : ACHTransaction) : DB × ACHTransaction :=
  let v := setMaxRetriesFromSettings env.settings (setCustomerFromAuthorization db.auths txn)
  let v := { v with name := "ACHT-" ++ toString db.seq }
  ({ db with txns := db.txns ++ [v], seq := db.seq + 1 }, v)

/-- frappe.db.set_value("ACH Transaction", name, "next_retry_date", v):
a direct field write that bypasses the validate hook. -/
def DB.setTxnNextRetryDate (db : DB) (name : String) (v : Option Int) : DB :=
  { db with txns := db.txns.map (fun t =>
      if t.name = name then { t with nextRetryDate := v } else t) }

/-! ### ach_transaction.py: the transaction state machine -/

/-- Return codes that should not be retried (the keys of the source's
NON_RETRYABLE_RETURN_CODES dict). -/
def NON_RETRYABLE_RETURN_CODES : List String :=
  ["R02", "R03", "R04", "R07", "R08", "R10", "R16", "R20", "R29"]

/-- ACHTransaction.should_retry: no retry once max retries is reached, and no
retry for a (truthy) return code in the non-retryable set. -/
def ACHTransaction.should_retry (txn : ACHTransaction) (returnCode : Option String) : Bool :=
  if txn.retryAttempt ≥ txn.maxRetries then false
  else if truthyStr returnCode ∧ (returnCode.getD "") ∈ NON_RETRYABLE_RETURN_CODES then false
  else true

/-- ACHTransaction.schedule_retry: set next_retry_date to today plus the
configured delay and save. -/
def schedule_retry (env : Env) (db : DB) (txn : ACHTransaction) : DB × ACHTransaction :=
  db.saveTxn { txn with nextRetryDate := some (env.today + env.settings.retryDelayDays) }

/-- ACHTransaction.send_notification: send an e-mail for the given kind if
the corresponding settings flag is on and the customer has an e-mail
address; on a successful send, set notification_sent and save. A sendmail
failure is caught, so neither the flag nor the log changes. -/
def send_notification (env : Env) (db : DB) (txn : ACHTransaction)
    (notificationType : String) : DB × ACHTransaction :=
  let shouldSend :=
    (notificationType = "success" ∧ env.settings.sendSuccessNotification) ∨
    (notificationType = "failure" ∧ env.settings.sendFailureNotification) ∨
    (notificationType = "upcoming" ∧ env.settings.sendUpcomingDebitNotification)
  if ¬shouldSend then (db, txn)
  else if ¬truthyStr (env.customerEmail txn.customer) then (db, txn)
  else if env.emailOk then
    let db := { db with sentEmails := db.sentEmails ++ [(txn.name, notificationType)] }
    DB.saveTxn db { txn with notificationSent := true }
  else (db, txn)

/-- The Payment Entry document create_payment_entry assembles from the
transaction (party, paid_amount and reference_no copied from the
transaction, name autogenerated). -/
def newPaymentEntry (db : DB) (txn : ACHTransaction) : PaymentEntry :=
  { name := "PE-" ++ toString db.seq, referenceNo := txn.name,
    party := txn.customer, paidAmount := txn.amount }

/-- ACHTransaction.create_payment_entry: idempotent by a lookup on
reference_no before insert; any exception (missing loan, accounting
misconfiguration) is caught and yields None. -/
def create_payment_entry (env : Env) (db : DB) (txn : ACHTransaction) :
    DB × Option PaymentEntry :=
  if ¬env.loanExists txn.loan then (db, none)
  else
    match db.paymentEntries.find? (fun pe => pe.referenceNo = txn.name) with
    | some pe => (db, some pe)
    | none =>
      if env.paymentEntryCreationOk then
        ({ db with
            paymentEntries := db.paymentEntries ++ [newPaymentEntry db txn]
            seq := db.seq + 1 }, some (newPaymentEntry db txn))
      else (db, none)

/-- The opening lines of mark_success: set Success and the completion
timestamp, and record the raw processor status when it is truthy. -/
def successHeader (env : Env) (achqStatus : Option String)
    (txn : ACHTransaction) : ACHTransaction :=
  let txn := { txn with status := TxnStatus.Success, completedDate := some env.now }
  if truthyStr achqStatus then { txn with achqStatus := achqStatus } else txn

/-- The middle lines of mark_success: when create_payment_entry yielded a
Payment Entry, link it on the transaction. -/
def attachPaymentEntry (txn : ACHTransaction) (r : Option PaymentEntry) :
    ACHTransaction :=
  match r with
  | some pe => { txn with paymentEntry := some pe.name }
  | none => txn

/-- The final lines of mark_success, applied to the saved document: send the
success notification unless already sent. -/
def markSuccessTail (env : Env) (saved : DB × ACHTransaction) : DB × ACHTransaction :=
  if ¬saved.2.notificationSent then send_notification env saved.1 saved.2 "success"
  else saved

/-- The save performed by send_notification after logging the e-mail,
expressed as a function of the already-saved pair it starts from. -/
def notifySave (p : DB × ACHTransaction) (k : String) : DB × ACHTransaction :=
  DB.saveTxn { p.1 with sentEmails := p.1.sentEmails ++ [(p.2.name, k)] }
    { p.2 with notificationSent := true }

/-- ACHTransaction.mark_success: set Success and the completion timestamp,
record the raw processor status if truthy, create (or find) the Payment
Entry, save, and send the success notification unless already sent. -/
def mark_success (env : Env) (db : DB) (txn : ACHTransaction)
    (achqStatus : Option String) : DB × ACHTransaction :=
  let txn := successHeader env achqStatus txn
  let step := create_payment_entry env db txn
  markSuccessTail env (DB.saveTxn step.1 (attachPaymentEntry txn step.2))

/-- The final lines of mark_failed, applied to the saved document: schedule a
retry when should_retry allows, then send the failure notification unless
already sent. -/
def markFailedTail (env : Env) (saved : DB × ACHTransaction)
    (returnCode : Option String) : DB × ACHTransaction :=
  let step :=
    if saved.2.should_retry returnCode then schedule_retry env saved.1 saved.2
    else saved
  if ¬step.2.notificationSent then send_notification env step.1 step.2 "failure"
  else step

/-- ACHTransaction.mark_failed: Returned when a truthy return code is passed,
else Failed; record failure details, save, schedule a retry when
should_retry allows, and send the failure notification unless already
sent. -/
def mark_failed (env : Env) (db : DB) (txn : ACHTransaction)
    (failureCode failureReason returnCode : Option String) : DB × ACHTransaction :=
  let txn :=
    if truthyStr returnCode then { txn with status := TxnStatus.Returned, returnCode := returnCode }
    else { txn with status := TxnStatus.Failed }
  let txn := { txn with
    failureCode := failureCode
    failureReason := failureReason
    completedDate := some env.now }
  markFailedTail env (DB.saveTxn db txn) returnCode

/-- ACHTransaction.create_retry_transaction: only below the retry cap and
against a still-Active authorization; the new transaction carries attempt
plus one, the same amount, loan and customer, and the root of the retry
chain; the predecessor's pending retry date is cleared. -/
def create_retry_transaction (env : Env) (db : DB) (txn : ACHTransaction) :
    Except String (DB × ACHTransaction × ACHTransaction) :=
  if txn.retryAttempt ≥ txn.maxRetries then Except.error "Maximum retry attempts reached"
  else
    match db.auths.find? (fun a => a.name = txn.achAuthorization) with
    | none => Except.error "Authorization not found"
    | some auth =>
      if auth.status ≠ AuthStatus.Active then Except.error "Authorization is no longer active"
      else
        let retryTxn : ACHTransaction :=
          { name := "", achAuthorization := txn.achAuthorization, loan := txn.loan,
            customer := txn.customer, amount := txn.amount, status := TxnStatus.Scheduled,
            scheduledDate := env.today, achqTransactionId := none, achqStatus := none,
            failureCode := none, failureReason := none, returnCode := none,
            retryAttempt := txn.retryAttempt + 1, maxRetries := txn.maxRetries,
            nextRetryDate := none,
            originalTransaction := some (orElseStr txn.originalTransaction txn.name),
            initiatedDate := none, completedDate := none, settlementDate := none,
            paymentEntry := none, notificationSent := false }
        let ins := DB.insertTxn db env retryTxn
        let saved := DB.saveTxn ins.1 { txn with nextRetryDate := none }
        Except.ok (saved.1, saved.2, ins.2)

/-! ### achq_integration.py: status map and webhook -/

/-- The ACHQ-to-internal status mapping dict. -/
def ACHQ_STATUS_MAP : List (String × TxnStatus) :=
  [("Scheduled", TxnStatus.Scheduled),
   ("InProcess", TxnStatus.Processing),
   ("Cleared", TxnStatus.Success),
   ("Settled", TxnStatus.Success),
   ("Returned", TxnStatus.Returned),
   ("Returned-NSF", TxnStatus.Returned),
   ("Returned-Other", TxnStatus.Returned),
   ("ChargedBack", TxnStatus.Returned),
   ("Cancelled", TxnStatus.Cancelled),
   ("Rejected", TxnStatus.Failed)]

/-- ACHQ_STATUS_MAP.get(s). -/
def statusMapLookup (s : String) : Option TxnStatus :=
  (ACHQ_STATUS_MAP.find? (fun p => p.1 = s)).map (fun p => p.2)

/-- The fields achq_webhook reads from frappe.local.form_dict. -/
structure WebhookPayload where
  transactionID : Option String
  merchantReferenceID : Option String
  paymentStatus : Option String
  returnCode : Option String
  returnDescription : Option String
  deriving DecidableEq, Repr

/-- The webhook's transaction resolution: internal reference first (when
truthy and the record exists), then lookup by the ACHQ transaction id. -/
def findWebhookTxn (db : DB) (merchantRefId transactionId : Option String) :
    Option ACHTransaction :=
  let byRef : Option ACHTransaction :=
    if truthyStr merchantRefId then db.txns.find? (fun t => t.name = merchantRefId.getD "")
    else none
  match byRef with
  | some t => some t
  | none =>
    if truthyStr transactionId then
      db.txns.find? (fun t => t.achqTransactionId = some (transactionId.getD ""))
    else none

/-- The webhook's acknowledgement payload. -/
inductive WebhookResp
  | ok
  | err (msg : String)
  deriving DecidableEq, Repr

/-- achq_webhook: resolve the target transaction and dispatch on the lowered
PaymentStatus string. Cleared/settled/success goes to mark_success; the
returned family goes to mark_failed with the reported ReturnCode; the
failed family goes to mark_failed without a return code; cancelled sets
Cancelled directly, guarded against terminal states; anything else only
touches the in-memory raw status, which is never saved. -/
def achq_webhook (env : Env) (db : DB) (payload : WebhookPayload) : DB × WebhookResp :=
  let transactionId := payload.transactionID
  let merchantRefId := payload.merchantReferenceID
  let paymentStatus := pyLower (payload.paymentStatus.getD "")
  let returnCode := payload.returnCode
  let returnDescription := payload.returnDescription
  if ¬truthyStr transactionId ∧ ¬truthyStr merchantRefId then
    (db, WebhookResp.err "No transaction ID")
  else
    match findWebhookTxn db merchantRefId transactionId with
    | none => (db, WebhookResp.err "Transaction not found")
    | some txn =>
      let txn := { txn with achqStatus := some paymentStatus }
      if paymentStatus = "cleared" ∨ paymentStatus = "settled" ∨ paymentStatus = "success" then
        ((mark_success env db txn (some paymentStatus)).1, WebhookResp.ok)
      else if paymentStatus = "returned" ∨ paymentStatus = "returned-nsf" ∨
          paymentStatus = "returned-other" ∨ paymentStatus = "chargedback" then
        ((mark_failed env db txn returnCode returnDescription returnCode).1, WebhookResp.ok)
      else if paymentStatus = "failed" ∨ paymentStatus = "declined" ∨
          paymentStatus = "rejected" then
        ((mark_failed env db txn (some (orElseStr returnCode "FAILED"))
            (some (orElseStr returnDescription "Payment failed")) none).1, WebhookResp.ok)
      else if paymentStatus = "cancelled" then
        if ¬(txn.status = TxnStatus.Cancelled ∨ txn.status = TxnStatus.Success) then
          ((DB.saveTxn db { txn with status := TxnStatus.Cancelled }).1, WebhookResp.ok)
        else (db, WebhookResp.ok)
      else (db, WebhookResp.ok)

/-! ### achq_integration.py: the remote processor client adapter -/

/-- A JSON value, used to model the parsed response body. -/
inductive JValue
  | null
  | jbool (b : Bool)
  | num (n : Int)
  | str (s : String)
  | arr (elems : List JValue)
  | obj (fields : List (String × JValue))

/-- Python equality of a JSON value against a string literal: only a string
value can compare equal. -/
def jEqStr (v : JValue) (s : String) : Bool :=
  match v with
  | JValue.str t => t = s
  | _ => false

/-- The body of an HTTP response, classified by what json.loads does to it:
the empty string (falsy, caught by the source's early return), text that
raises JSONDecodeError, or text that decodes to a JSON value. -/
inductive Body
  | empty
  | invalidJson (text : String)
  | decoded (v : JValue)

/-- Outcome of the requests.post call: a timeout or connection error (both
subclasses of requests.RequestException), or an HTTP response with a status
code and a body; raise_for_status() raises HTTPError (also a
RequestException) for status codes of 400 and above. -/
inductive TransportOutcome
  | timeout
  | connectionError (msg : String)
  | httpResponse (status : Nat) (body : Body)

/-- A Python runtime error escaping the adapter: the AttributeError raised by
calling .get on a decoded non-dict value, or .lower on a non-string
CommandStatus; neither is a requests.RequestException, so the except clause
of _make_request does not catch it. -/
inductive PyError
  | attributeError
  deriving DecidableEq, Repr

/-- The normalized result dict of _parse_response / _make_request: the parsed
fields plus the success / error_message / error_code keys the adapter
writes into the same dict. -/
structure ACHQResult where
  fields : List (String × JValue)
  success : Bool
  errorMessage : Option JValue
  errorCode : Option JValue

/-- dict.get(k) on the parsed JSON object. -/
def jGet (fields : List (String × JValue)) (k : String) : Option JValue :=
  (fields.find? (fun p => p.1 = k)).map (fun p => p.2)

/-- The failure dicts the adapter builds for transport errors, empty bodies
and JSON decode errors. -/
def failureResult (msg : String) : ACHQResult :=
  { fields := [], success := false, errorMessage := some (JValue.str msg), errorCode := none }

/-- The tail of _parse_response once json.loads produced a dict: classify by
CommandStatus / ResponseCode and attach error_message and error_code on
failure. Calling .lower() on a non-string CommandStatus raises. -/
def parse_decoded (fields : List (String × JValue)) : Except PyError ACHQResult :=
  match (jGet fields "CommandStatus").getD (JValue.str "") with
  | JValue.str cs =>
    let commandStatus := pyLower cs
    let responseCode := (jGet fields "ResponseCode").getD (JValue.str "")
    if commandStatus = "approved" ∨ jEqStr responseCode "000" then
      Except.ok { fields := fields, success := true, errorMessage := none, errorCode := none }
    else
      let errMsg :=
        match jGet fields "Description" with
        | some d => d
        | none =>
          match jGet fields "ErrorInformation" with
          | some (JValue.obj ei) => (jGet ei "Message").getD (JValue.str "Unknown error")
          | some other => other
          | none => JValue.str "Unknown error"
      Except.ok { fields := fields, success := false, errorMessage := some errMsg,
                  errorCode := some responseCode }
  | _ => Except.error PyError.attributeError

/-- ACHQClient._parse_response. -/
def parse_response (body : Body) : Except PyError ACHQResult :=
  match body with
  | Body.empty => Except.ok (failureResult "Empty response")
  | Body.invalidJson _ => Except.ok (failureResult "Invalid JSON response")
  | Body.decoded (JValue.obj fields) => parse_decoded fields
  | Body.decoded _ => Except.error PyError.attributeError

/-- ACHQClient._make_request: requests.RequestException (timeout, connection
error, raise_for_status on a 4xx/5xx code) is caught and mapped to a
failure dict; otherwise the body is parsed. -/
def make_request (outcome : TransportOutcome) : Except PyError ACHQResult :=
  match outcome with
  | TransportOutcome.timeout => Except.ok (failureResult "Request timed out")
  | TransportOutcome.connectionError msg => Except.ok (failureResult msg)
  | TransportOutcome.httpResponse status body =>
    if 400 ≤ status then Except.ok (failureResult "HTTP error status")
    else parse_response body

/-! ### achq_integration.py: tokenization and bank-account setup -/

/-- The ExpressVerify field of a tokenization response: a dict carrying
Status / Code / Description, or a non-dict value (which the source treats
as unknown). An absent field behaves like an empty dict. -/
inductive RawExpressVerify
  | nonDict
  | objEV (status : Option String) (code : Option String) (desc : Option String)
  deriving DecidableEq, Repr

/-- The fields of an ECheck.CreateACHQToken response that tokenize_and_verify
reads, with the protocol's field types, after _make_request normalization. -/
structure RawTokenResponse where
  success : Bool
  errorMessage : Option String
  achqToken : Option String
  bankName : Option String
  expressVerify : Option RawExpressVerify
  deriving DecidableEq, Repr

/-- The dict tokenize_and_verify returns to its caller. -/
structure TokenizeVerifyResult where
  success : Bool
  errorMessage : Option String
  token : Option String
  bankName : Option String
  verifyStatus : String
  verifyCode : Option String
  verifyDescription : Option String
  routingLast4 : String
  accountLast4 : String
  deriving DecidableEq, Repr

/-- ACHQClient.tokenize_and_verify, applied to the normalized processor
response: on success, extract the token, bank name, graded verification
fields (Status defaults to UNK, also for a non-dict ExpressVerify) and the
last-4 masks of the submitted identifiers; on failure, pass the failure
dict through. -/
def tokenize_and_verify (resp : RawTokenResponse) (routingNumber accountNumber : String) :
    TokenizeVerifyResult :=
  if resp.success then
    let ev :=
      match resp.expressVerify with
      | none => ("UNK", (none : Option String), (none : Option String))
      | some (RawExpressVerify.objEV s c d) => (s.getD "UNK", c, d)
      | some RawExpressVerify.nonDict => ("UNK", none, none)
    { success := true, errorMessage := none, token := resp.achqToken,
      bankName := some (resp.bankName.getD ""), verifyStatus := ev.1,
      verifyCode := ev.2.1, verifyDescription := ev.2.2,
      routingLast4 := last4 routingNumber, accountLast4 := last4 accountNumber }
  else
    { success := false, errorMessage := resp.errorMessage, token := none, bankName := none,
      verifyStatus := "UNK", verifyCode := none, verifyDescription := none,
      routingLast4 := "", accountLast4 := "" }

/-! ### ach_authorization.py (single-binding app) -/

/-- ACHAuthorization._validate_loan_customer: a loan-bound authorization must
name a loan whose applicant is the authorization's customer (a missing loan
record also fails, since None never equals the customer). -/
def validate_loan_customer (loans : List Loan) (auth : ACHAuthorization) :
    Except String Unit :=
  if truthyStr auth.loan then
    if loanApplicant loans (auth.loan.getD "") ≠ some auth.customer then
      Except.error "Loan does not belong to Customer"
    else Except.ok ()
  else Except.ok ()

/-- ACHAuthorization._validate_unique_active_authorization: an Active
authorization must be the only Active one for its loan. -/
def validate_unique_active_authorization (auths : List ACHAuthorization)
    (auth : ACHAuthorization) : Except String Unit :=
  if auth.status = AuthStatus.Active then
    if auths.any (fun a => a.loan = auth.loan ∧ a.status = AuthStatus.Active ∧
        a.name ≠ auth.name) then
      Except.error "An active ACH Authorization already exists for this Loan"
    else Except.ok ()
  else Except.ok ()

/-- doc.save() for an ACH Authorization of the single-binding app: run both
validate checks against the pre-save store, then replace by name. -/
def DB.saveAuthSingle (db : DB) (auth : ACHAuthorization) :
    Except String (DB × ACHAuthorization) :=
  match validate_loan_customer db.loans auth with
  | Except.error e => Except.error e
  | Except.ok _ =>
    match validate_unique_active_authorization db.auths auth with
    | Except.error e => Except.error e
    | Except.ok _ =>
      Except.ok
        ({ db with auths := db.auths.map (fun a => if a.name = auth.name then auth else a) },
          auth)

/-- doc.insert() for an ACH Authorization of the single-binding app:
autogenerate the name, run validate, append. -/
def DB.insertAuthSingle (db : DB) (auth : ACHAuthorization) :
    Except String (DB × ACHAuthorization) :=
  let auth := { auth with name := "AUTH-" ++ toString db.seq }
  match validate_loan_customer db.loans auth with
  | Except.error e => Except.error e
  | Except.ok _ =>
    match validate_unique_active_authorization db.auths auth with
    | Except.error e => Except.error e
    | Except.ok _ =>
      Except.ok ({ db with auths := db.auths ++ [auth], seq := db.seq + 1 }, auth)

/-- ACHAuthorization.resume (single-binding app): only a Paused authorization
resumes, and only when no other Active authorization exists for the same
loan; then set Active and save. -/
def ACHAuthorization.resume (db : DB) (auth : ACHAuthorization) :
    Except String (DB × ACHAuthorization) :=
  if auth.status ≠ AuthStatus.Paused then
    Except.error "Only paused authorizations can be resumed"
  else if db.auths.any (fun a => a.loan = auth.loan ∧ a.status = AuthStatus.Active ∧
      a.name ≠ auth.name) then
    Except.error "Another active authorization exists for this loan"
  else
    DB.saveAuthSingle db { auth with status := AuthStatus.Active }

/-! ### ach_authorization.py (multi-account app) -/

/-- ACHAuthorization._validate_single_default (multi-account app): a default
Active authorization auto-unsets the default flag of the one other default
Active authorization found for the same customer; it never throws. -/
def validate_single_default (db : DB) (auth : ACHAuthorization) : DB :=
  if auth.isDefault ∧ auth.status = AuthStatus.Active then
    match db.auths.find? (fun a => a.customer = auth.customer ∧ a.isDefault ∧
        a.status = AuthStatus.Active ∧ a.name ≠ auth.name) with
    | some other =>
      { db with auths := db.auths.map (fun a =>
          if a.name = other.name then { a with isDefault := false } else a) }
    | none => db
  else db

/-- doc.save() for an ACH Authorization of the multi-account app. -/
def DB.saveAuthMulti (db : DB) (auth : ACHAuthorization) : DB × ACHAuthorization :=
  let db := validate_single_default db auth
  ({ db with auths := db.auths.map (fun a => if a.name = auth.name then auth else a) }, auth)

/-- ACHAuthorization.resume (multi-account app): only a Paused authorization
resumes; no further check is made before setting Active and saving. -/
def resume_multiaccount (db : DB) (auth : ACHAuthorization) :
    Except String (DB × ACHAuthorization) :=
  if auth.status ≠ AuthStatus.Paused then
    Except.error "Only paused authorizations can be resumed"
  else
    Except.ok (DB.saveAuthMulti db { auth with status := AuthStatus.Active })

/-- get_customer_default_authorization (multi-account app): the customer's
default Active authorization, if any. -/
def get_customer_default_authorization (auths : List ACHAuthorization) (customer : String) :
    Option ACHAuthorization :=
  auths.find? (fun a => a.customer = customer ∧ a.isDefault ∧ a.status = AuthStatus.Active)

/-- get_loan_payment_account (multi-account app): the loan-level override if
truthy, returned only when Active and otherwise failing closed to none;
else the customer's default Active authorization; else none. A missing loan
or a dangling override reference raises out of frappe.get_doc. -/
def get_loan_payment_account (db : DB) (loan : String) :
    Except String (Option ACHAuthorization) :=
  match db.loans.find? (fun l => l.name = loan) with
  | none => Except.error "Loan not found"
  | some loanDoc =>
    if truthyStr loanDoc.achPaymentAccount then
      match db.auths.find? (fun a => a.name = loanDoc.achPaymentAccount.getD "") with
      | none => Except.error "Authorization not found"
      | some auth =>
        if auth.status = AuthStatus.Active then Except.ok (some auth)
        else Except.ok none
    else Except.ok (get_customer_default_authorization db.auths loanDoc.applicant)

/-! ### setup_bank_account (both apps) -/

/-- The success payload of setup_bank_account. -/
structure SetupOk where
  authorizationName : String
  bankName : String
  accountLast4 : String
  verificationStatus : String
  deriving DecidableEq, Repr

/-- setup_bank_account (single-binding app): validate the request shape,
check loan ownership and the absence of an Active authorization for the
loan, require ACH autopay on (the ACHQClient constructor throws otherwise),
tokenize and verify, reject a negative verification unconditionally and an
unknown one under policy, then persist a new Active authorization holding
only the masked last-4 identifiers and the opaque token. The processor
interaction is the parameter resp; the customer_name lookup feeding it is
out of the decision path. -/
def setup_bank_account (env : Env) (db : DB)
    (customer loan routingNumber accountNumber accountType : String)
    (resp : RawTokenResponse) : Except String (DB × SetupOk) :=
  if customer = "" ∨ loan = "" ∨ routingNumber = "" ∨ accountNumber = "" then
    Except.error "All fields are required"
  else
    let routing := pyStrip routingNumber
    if ¬(pyIsDigit routing ∧ routing.length = 9) then
      Except.error "Routing number must be exactly 9 digits"
    else
      let account := pyStrip accountNumber
      if ¬pyIsDigit account then Except.error "Account number must contain only digits"
      else if account.length < 4 ∨ account.length > 17 then
        Except.error "Account number must be between 4 and 17 digits"
      else if loanApplicant db.loans loan ≠ some customer then
        Except.error "Loan does not belong to this customer"
      else if db.auths.any (fun a => a.loan = some loan ∧ a.status = AuthStatus.Active) then
        Except.error "An active ACH Authorization already exists for this loan"
      else if ¬env.settings.enableAchAutopay then
        Except.error "ACH Autopay is not enabled"
      else
        let result := tokenize_and_verify resp routing account
        if ¬result.success then Except.error "Bank account verification failed"
        else if result.verifyStatus = "NEG" then
          Except.error "Bank account verification failed; account cannot be used"
        else if result.verifyStatus = "UNK" ∧ ¬env.settings.allowUnknownAccounts then
          Except.error "Bank account could not be verified"
        else
          match DB.insertAuthSingle db
            { name := "", customer := customer, loan := some loan, isDefault := false,
              status := AuthStatus.Active, bankName := result.bankName.getD "",
              accountType := accountType, bankAccountLast4 := result.accountLast4,
              routingNumberLast4 := result.routingLast4, achqToken := result.token,
              verificationStatus := result.verifyStatus, consentCaptured := true,
              secCode := env.settings.defaultSecCode } with
          | Except.ok inserted =>
            Except.ok (inserted.1,
              { authorizationName := inserted.2.name,
                bankName := result.bankName.getD "",
                accountLast4 := result.accountLast4,
                verificationStatus := result.verifyStatus })
          | Except.error e => Except.error e

/-- setup_bank_account (multi-account app): same validation and verification
policy, a customer-name existence check instead of the loan checks, and a
customer-level (possibly default) authorization; insert runs the
single-default validate hook, which never throws. -/
def setup_bank_account_multiaccount (env : Env) (db : DB)
    (customer routingNumber accountNumber accountType : String) (isDefault : Bool)
    (customerName : Option String) (resp : RawTokenResponse) :
    Except String (DB × SetupOk) :=
  if customer = "" ∨ routingNumber = "" ∨ accountNumber = "" then
    Except.error "Customer, routing number, and account number are required"
  else
    let routing := pyStrip routingNumber
    if ¬(pyIsDigit routing ∧ routing.length = 9) then
      Except.error "Routing number must be exactly 9 digits"
    else
      let account := pyStrip accountNumber
      if ¬pyIsDigit account then Except.error "Account number must contain only digits"
      else if account.length < 4 ∨ account.length > 17 then
        Except.error "Account number must be between 4 and 17 digits"
      else if ¬truthyStr customerName then Except.error "Customer not found"
      else if ¬env.settings.enableAchAutopay then Except.error "ACH Autopay is not enabled"
      else
        let result := tokenize_and_verify resp routing account
        if ¬result.success then Except.error "Bank account verification failed"
        else if result.verifyStatus = "NEG" then
          Except.error "Bank account verification failed; account cannot be used"
        else if result.verifyStatus = "UNK" ∧ ¬env.settings.allowUnknownAccounts then
          Except.error "Bank account could not be verified"
        else
          let auth : ACHAuthorization :=
            { name := "AUTH-" ++ toString db.seq, customer := customer, loan := none,
              isDefault := isDefault, status := AuthStatus.Active,
              bankName := result.bankName.getD "", accountType := accountType,
              bankAccountLast4 := result.accountLast4,
              routingNumberLast4 := result.routingLast4, achqToken := result.token,
              verificationStatus := result.verifyStatus, consentCaptured := true,
              secCode := env.settings.defaultSecCode }
          let db2 := validate_single_default db auth
          Except.ok ({ db2 with auths := db2.auths ++ [auth], seq := db2.seq + 1 },
            { authorizationName := auth.name, bankName := result.bankName.getD "",
              accountLast4 := result.accountLast4,
              verificationStatus := result.verifyStatus })

/-! ### scheduled_debits.py: the scheduler sweeps -/

/-- The effective work-list filter of process_retry_transactions. The Python
source builds the frappe.get_all filters as a dict literal that contains
the key next_retry_date twice (once with a less-or-equal-today condition,
once with a not-null condition); Python dict-literal semantics keep only
the last entry for a repeated key, so the date-arrived condition is dropped
and the effective filter is: status in (Failed, Returned) and
next_retry_date is not null. -/
def retrySweepFilter (txn : ACHTransaction) : Bool :=
  (txn.status = TxnStatus.Failed ∨ txn.status = TxnStatus.Returned) ∧
    txn.nextRetryDate ≠ none

/-- process_retry_transactions: walk the snapshot work list; skip items at
the attempt cap; for a no-longer-Active authorization clear the pending
retry date instead of retrying; otherwise create the retry transaction (a
thrown exception is caught per item and leaves the store unchanged). -/
def process_retry_transactions (env : Env) (db : DB) : DB :=
  if ¬env.settings.enableAchAutopay then db
  else
    (db.txns.filter retrySweepFilter).foldl (fun acc txnData =>
      if txnData.retryAttempt ≥ txnData.maxRetries then acc
      else if acc.authStatus txnData.achAuthorization ≠ some AuthStatus.Active then
        acc.setTxnNextRetryDate txnData.name none
      else
        match acc.txns.find? (fun t => t.name = txnData.name) with
        | none => acc
        | some txn =>
          match create_retry_transaction env acc txn with
          | Except.ok done => done.1
          | Except.error _ => acc) db

/-- One record of the batch status query (ECheckReports.StatusTrackingQuery),
as read by process_achq_status_update. -/
structure StatusRecord where
  transactionID : Option String
  merchantReferenceID : Option String
  paymentStatus : Option String
  returnCode : Option String
  returnDescription : Option String
  responseCode : Option String
  description : Option String
  deriving DecidableEq, Repr

/-- The poll path's transaction resolution: merchant reference first (when
truthy and the record exists), else lookup by ACHQ transaction id. -/
def findStatusRecordTxn (db : DB) (rec : StatusRecord) : Option ACHTransaction :=
  if truthyStr rec.merchantReferenceID ∧
      db.txns.any (fun t => t.name = rec.merchantReferenceID.getD "") then
    db.txns.find? (fun t => t.name = rec.merchantReferenceID.getD "")
  else if truthyStr rec.transactionID then
    db.txns.find? (fun t => t.achqTransactionId = some (rec.transactionID.getD ""))
  else none

/-- process_achq_status_update: resolve the local transaction, skip it
entirely when already terminal (Success or Cancelled), map the provider
status, and apply the guarded transition; an unknown provider status only
updates the raw status field. -/
def process_achq_status_update (env : Env) (db : DB) (rec : StatusRecord) : DB :=
  match findStatusRecordTxn db rec with
  | none => db
  | some txn =>
    if txn.status = TxnStatus.Success ∨ txn.status = TxnStatus.Cancelled then db
    else
      let achqStatus := rec.paymentStatus.getD ""
      match statusMapLookup achqStatus with
      | none =>
        if txn.achqStatus ≠ some achqStatus then
          (DB.saveTxn db { txn with achqStatus := some achqStatus }).1
        else db
      | some mapped =>
        if mapped = TxnStatus.Success ∧ txn.status ≠ TxnStatus.Success then
          (mark_success env db txn (some achqStatus)).1
        else if mapped = TxnStatus.Returned ∧
            ¬(txn.status = TxnStatus.Returned ∨ txn.status = TxnStatus.Failed) then
          (mark_failed env db txn none rec.returnDescription rec.returnCode).1
        else if mapped = TxnStatus.Processing ∧ txn.status = TxnStatus.Initiated then
          (DB.saveTxn db { txn with
            status := TxnStatus.Processing
            achqStatus := some achqStatus }).1
        else if mapped = TxnStatus.Cancelled ∧
            ¬(txn.status = TxnStatus.Cancelled ∨ txn.status = TxnStatus.Success) then
          (DB.saveTxn db { txn with
            status := TxnStatus.Cancelled
            achqStatus := some achqStatus }).1
        else if mapped = TxnStatus.Failed ∧
            ¬(txn.status = TxnStatus.Failed ∨ txn.status = TxnStatus.Returned ∨
              txn.status = TxnStatus.Success) then
          (mark_failed env db txn rec.responseCode
            (some (rec.description.getD "Payment failed")) none).1
        else db

/-- Membership of an optional return code in the non-retryable set (the
source's membership test only fires on a present, nonempty code; none of
the listed codes is the empty string). -/
def inNonRetryableSet (returnCode : Option String) : Bool :=
  match returnCode with
  | some s => s ∈ NON_RETRYABLE_RETURN_CODES
  | none => false

/-- Whether a fallible operation succeeded. -/
def exOk {ε α : Type} (r : Except ε α) : Bool :=
  match r with
  | Except.ok _ => true
  | Except.error _ => false

/-- The payload of a successful fallible operation, with a fallback for the
error case. -/
def okValue {e a : Type} (r : Except e a) (d : a) : a :=
  match r with
  | Except.ok v => v
  | Except.error _ => d

/-- The at-most-one-Active-authorization-per-loan invariant of the
single-binding app: for every loan value (including the unbound case), at
most one stored authorization with that loan is Active. -/
def atMostOneActivePerLoan (db : DB) : Prop :=
  ∀ l : Option String,
    ((db.auths.filter (fun a => a.loan = l ∧ a.status = AuthStatus.Active)).length ≤ 1)

/-- The database component of an authorization-operation result, with a
fallback for the error case. -/
def exceptDB (r : Except String (DB × ACHAuthorization)) (d : DB) : DB :=
  match r with
  | Except.ok p => p.1
  | Except.error _ => d

/-- The verification status tokenize_and_verify extracts from a successful
response (Status of the ExpressVerify dict, defaulting to UNK, also for a
non-dict value). -/
def rawVerifyStatus (resp : RawTokenResponse) : String :=
  match resp.expressVerify with
  | none => "UNK"
  | some (RawExpressVerify.objEV s _ _) => s.getD "UNK"
  | some RawExpressVerify.nonDict => "UNK"

/-! ### Concrete fixtures used by closed evaluations -/

/-- A baseline transaction. -/
def baseTxn : ACHTransaction :=
  { name := "T1", achAuthorization := "A1", loan := "L1", customer := "CUST1",
    amount := 100, status := TxnStatus.Scheduled, scheduledDate := 0,
    achqTransactionId := some "Q1", achqStatus := none, failureCode := none,
    failureReason := none, returnCode := none, retryAttempt := 0,
    maxRetries := 3, nextRetryDate := none, originalTransaction := none,
    initiatedDate := none, completedDate := none, settlementDate := none,
    paymentEntry := none, notificationSent := false }

/-- Baseline settings: autopay enabled, notifications on, unknown accounts
not allowed. -/
def baseSettings : ACHSettings :=
  { enableAchAutopay := true, maxRetryAttempts := 3, retryDelayDays := 3,
    sendSuccessNotification := true, sendFailureNotification := true,
    sendUpcomingDebitNotification := true, allowUnknownAccounts := false,
    defaultSecCode := "WEB", defaultCheckType := some "Personal" }

/-- A baseline environment around day 100. -/
def baseEnv : Env :=
  { settings := baseSettings, today := 100, now := 1000,
    customerEmail := fun _ => some "customer.mail", emailOk := true,
    loanExists := fun _ => true, paymentEntryCreationOk := true }

/-- A baseline Active authorization bound to loan L1. -/
def baseAuth : ACHAuthorization :=
  { name := "A1", customer := "CUST1", loan := some "L1", isDefault := false,
    status := AuthStatus.Active, bankName := "Test Bank",
    accountType := "Checking", bankAccountLast4 := "5678",
    routingNumberLast4 := "6789", achqToken := some "tok1",
    verificationStatus := "POS", consentCaptured := true, secCode := "WEB" }

/-- The loan behind the baseline fixtures. -/
def baseLoan : Loan :=
  { name := "L1", applicant := "CUST1", achPaymentAccount := none }

/-- A baseline store holding the fixtures above. -/
def baseDB : DB :=
  { txns := [baseTxn], auths := [baseAuth], loans := [baseLoan],
    paymentEntries := [], sentEmails := [], seq := 0 }

/-- Store for the terminal-state evaluation: the single transaction is
already Cancelled. -/
def cancelledDB : DB :=
  { baseDB with txns := [{ baseTxn with status := TxnStatus.Cancelled }] }

/-- The webhook payload reporting Cleared for transaction T1. -/
def clearedPayload : WebhookPayload :=
  { transactionID := some "Q1", merchantReferenceID := some "T1",
    paymentStatus := some "Cleared", returnCode := none, returnDescription := none }

/-- The corresponding poll record reporting Cleared for transaction T1. -/
def clearedRecord : StatusRecord :=
  { transactionID := some "Q1", merchantReferenceID := some "T1",
    paymentStatus := some "Cleared", returnCode := none,
    returnDescription := none, responseCode := none, description := none }

/-- A Failed transaction whose next_retry_date lies strictly in the future
(day 101 against today 100). -/
def failedFutureTxn : ACHTransaction :=
  { baseTxn with
    status := TxnStatus.Failed
    nextRetryDate := some 101 }

/-- Store for the retry-sweep evaluation, holding only failedFutureTxn. -/
def futureRetryDB : DB :=
  { baseDB with txns := [failedFutureTxn] }

/-- A fallback triple for okValue on transaction-creation results. -/
def fallbackTriple : DB × ACHTransaction × ACHTransaction :=
  (baseDB, baseTxn, baseTxn)

/-- A second, Paused authorization for the same loan and customer as A1. -/
def pausedAuth2 : ACHAuthorization :=
  { baseAuth with name := "A2", status := AuthStatus.Paused }

/-- Store holding one Active (A1) and one Paused (A2) authorization, both
with loan L1 and customer CUST1. -/
def twoAuthDB : DB := { baseDB with auths := [baseAuth, pausedAuth2] }

/-- Store holding only the Paused authorization A2. -/
def soloPausedDB : DB := { baseDB with auths := [pausedAuth2] }

/-- A Paused customer-level authorization used as a loan override. -/
def pausedOverrideAuth : ACHAuthorization :=
  { baseAuth with name := "A4", loan := none, status := AuthStatus.Paused }

/-- The customer's default Active authorization. -/
def defaultAuth : ACHAuthorization :=
  { baseAuth with name := "A5", loan := none, isDefault := true }

/-- A loan whose override points at the Paused authorization A4. -/
def overrideLoan : Loan :=
  { name := "L2", applicant := "CUST1", achPaymentAccount := some "A4" }

/-- A loan with no override. -/
def plainLoan : Loan :=
  { name := "L3", applicant := "CUST1", achPaymentAccount := none }

/-- Store for override resolution: both loans above, the Paused override
authorization and the default Active authorization. -/
def resolveDB : DB :=
  { baseDB with
    auths := [pausedOverrideAuth, defaultAuth]
    loans := [overrideLoan, plainLoan] }

/-- A successful tokenization response graded POS. -/
def posResp : RawTokenResponse :=
  { success := true, errorMessage := none, achqToken := some "TOK9",
    bankName := some "Test Bank",
    expressVerify := some (RawExpressVerify.objEV (some "POS") none none) }

/-- A fallback pair for okValue on setup results. -/
def fallbackSetup : DB × SetupOk :=
  (baseDB,
    { authorizationName := ""
      bankName := ""
      accountLast4 := ""
      verificationStatus := "" })

/-! ## Theorems -/

/-- C1: a transaction in a terminal state is claimed to be left unchanged by
every reconciliation input. The polled path (process_achq_status_update)
does guard terminal states: a Cleared record for the Cancelled transaction
T1 leaves the store untouched. The webhook path does not: the same report
delivered as a webhook flips the Cancelled transaction to Success (and
creates a settlement record), contradicting the claim at this input. -/
theorem webhook_cleared_overwrites_cancelled :
    process_achq_status_update baseEnv cancelledDB clearedRecord = cancelledDB ∧
    (achq_webhook baseEnv cancelledDB clearedPayload).1.txnStatus "T1" =
      some TxnStatus.Success ∧
    countPaymentEntries (achq_webhook baseEnv cancelledDB clearedPayload).1 "T1" = 1 := by
  decide

/-- C2: the retry sweep is claimed to retry only transactions whose
next_retry_date has arrived. On a store whose single Failed transaction has
next_retry_date 101 while today is 100, the sweep nevertheless creates a
retry transaction (the Python filter dict repeats the next_retry_date key,
and the date-arrived condition is overwritten by the not-null condition),
contradicting the claim and the function's own docstring. -/
theorem retry_sweep_ignores_future_retry_date :
    (process_retry_transactions baseEnv futureRetryDB).txns.length = 2 ∧
    ((process_retry_transactions baseEnv futureRetryDB).txns.find?
      (fun t => t.name = "ACHT-0")).map (fun t => (t.retryAttempt, t.status)) =
        some (1, TxnStatus.Scheduled) := by
  decide

/-- C8 counterexample: a 200 response whose body decodes to the JSON array []
is a malformed (non-object) response body, yet _make_request raises an
AttributeError (result.get on a list) instead of returning a result dict;
the except clause only catches requests.RequestException, so the error
crosses the adapter boundary. -/
theorem make_request_raises_on_array_body :
    make_request (TransportOutcome.httpResponse 200 (Body.decoded (JValue.arr []))) =
      Except.error PyError.attributeError := by
  rfl

/-- C8 amended: every transport failure (timeout, connection error, non-2xx
response) and every empty or JSON-undecodable body is mapped to a result
dict with success false; an error escapes the adapter only when the body
decodes to JSON on which the dict accesses blow up (a non-object top level,
or a non-string CommandStatus value). -/
theorem make_request_failure_mapping :
    (make_request TransportOutcome.timeout = Except.ok (failureResult "Request timed out")) ∧
    (∀ msg, make_request (TransportOutcome.connectionError msg) =
      Except.ok (failureResult msg)) ∧
    (∀ status body, 400 ≤ status →
      make_request (TransportOutcome.httpResponse status body) =
        Except.ok (failureResult "HTTP error status")) ∧
    (∀ status, status < 400 →
      make_request (TransportOutcome.httpResponse status Body.empty) =
        Except.ok (failureResult "Empty response")) ∧
    (∀ status text, status < 400 →
      make_request (TransportOutcome.httpResponse status (Body.invalidJson text)) =
        Except.ok (failureResult "Invalid JSON response")) ∧
    (∀ msg, (failureResult msg).success = false) ∧
    (∀ outcome e, make_request outcome = Except.error e →
      ∃ status v, outcome = TransportOutcome.httpResponse status (Body.decoded v)) := by
  refine ⟨rfl, fun msg => rfl, fun status body h => ?_, fun status h => ?_,
    fun status text h => ?_, fun msg => rfl, fun outcome e h => ?_⟩
  · simp [make_request, h]
  · simp [make_request, Nat.not_le_of_lt h, parse_response]
  · simp [make_request, Nat.not_le_of_lt h, parse_response]
  · cases outcome with
    | timeout => simp [make_request] at h
    | connectionError msg => simp [make_request] at h
    | httpResponse status body =>
        refine ⟨status, ?_⟩
        cases body with
        | empty =>
            by_cases h4 : 400 ≤ status <;> simp [make_request, h4, parse_response] at h
        | invalidJson text =>
            by_cases h4 : 400 ≤ status <;> simp [make_request, h4, parse_response] at h
        | decoded v => exact ⟨v, rfl⟩

/-- Witness for make_request_failure_mapping: the hypothesis-guarded parts
applied at a 500 status and at 200-status empty and undecodable bodies. -/
theorem make_request_failure_mapping_witness :
    (make_request (TransportOutcome.httpResponse 500 Body.empty) =
      Except.ok (failureResult "HTTP error status")) ∧
    (make_request (TransportOutcome.httpResponse 200 Body.empty) =
      Except.ok (failureResult "Empty response")) ∧
    (make_request (TransportOutcome.httpResponse 200 (Body.invalidJson "not json")) =
      Except.ok (failureResult "Invalid JSON response")) := by
  exact ⟨make_request_failure_mapping.2.2.1 500 Body.empty (by decide),
    make_request_failure_mapping.2.2.2.1 200 (by decide),
    make_request_failure_mapping.2.2.2.2.1 200 "not json" (by decide)⟩

/-- C4: should_retry(return_code) returns false if and only if
retry_attempt is at least max_retries or the return code lies in the fixed
non-retryable set R02, R03, R04, R07, R08, R10, R16, R20, R29; in particular
with retry_attempt 2 and max_retries 3 the code R02 yields false despite
attempts remaining, and with retry_attempt 1 and max_retries 3 the code R01
yields true. -/
theorem should_retry_spec :
    (∀ (txn : ACHTransaction) (rc : Option String),
      txn.should_retry rc = false ↔
        (txn.retryAttempt ≥ txn.maxRetries ∨ inNonRetryableSet rc = true)) ∧
    (∀ txn : ACHTransaction, txn.retryAttempt = 2 → txn.maxRetries = 3 →
      txn.should_retry (some "R02") = false) ∧
    (∀ txn : ACHTransaction, txn.retryAttempt = 1 → txn.maxRetries = 3 →
      txn.should_retry (some "R01") = true) := by
  refine ⟨fun txn rc => ?_, fun txn h1 h2 => ?_, fun txn h1 h2 => ?_⟩
  · unfold ACHTransaction.should_retry inNonRetryableSet truthyStr
    cases rc with
    | none => simp
    | some s =>
        by_cases hmax : txn.retryAttempt ≥ txn.maxRetries
        · simp [hmax]
        · by_cases hs : s ∈ NON_RETRYABLE_RETURN_CODES
          · have hne : s ≠ "" := by
              intro h
              subst h
              revert hs
              decide
            simp [hmax, hs, hne]
          · simp [hmax, hs]
  · unfold ACHTransaction.should_retry
    rw [h1, h2]
    decide
  · unfold ACHTransaction.should_retry
    rw [h1, h2]
    decide

/-- Witness for should_retry_spec: both scenario parts instantiated on a
concrete transaction. -/
theorem should_retry_spec_witness :
    ({ name := "T1", achAuthorization := "A1", loan := "L1", customer := "C1",
       amount := 100, status := TxnStatus.Returned, scheduledDate := 0,
       achqTransactionId := none, achqStatus := none, failureCode := none,
       failureReason := none, returnCode := none, retryAttempt := 2,
       maxRetries := 3, nextRetryDate := none, originalTransaction := none,
       initiatedDate := none, completedDate := none, settlementDate := none,
       paymentEntry := none, notificationSent := false } :
      ACHTransaction).should_retry (some "R02") = false ∧
    ({ name := "T1", achAuthorization := "A1", loan := "L1", customer := "C1",
       amount := 100, status := TxnStatus.Returned, scheduledDate := 0,
       achqTransactionId := none, achqStatus := none, failureCode := none,
       failureReason := none, returnCode := none, retryAttempt := 1,
       maxRetries := 3, nextRetryDate := none, originalTransaction := none,
       initiatedDate := none, completedDate := none, settlementDate := none,
       paymentEntry := none, notificationSent := false } :
      ACHTransaction).should_retry (some "R01") = true := by
  exact ⟨should_retry_spec.2.1 _ rfl rfl, should_retry_spec.2.2 _ rfl rfl⟩

/-- Helper: when satisfying the filter after the map forces satisfying q
before it, the filtered length of the mapped list is bounded by the
q-filtered length of the original. -/
theorem length_filter_map_le {α : Type} (f : α → α) (p q : α → Bool) :
    ∀ xs : List α, (∀ a ∈ xs, p (f a) = true → q a = true) →
      ((xs.map f).filter p).length ≤ (xs.filter q).length := by
  intro xs
  induction xs with
  | nil => intro _; simp
  | cons a tl ih =>
      intro h
      have htl : ∀ b ∈ tl, p (f b) = true → q b = true :=
        fun b hb => h b (List.mem_cons_of_mem a hb)
      by_cases hpa : p (f a) = true
      · have hqa : q a = true := h a (List.mem_cons_self a tl) hpa
        simp only [List.map_cons, List.filter_cons, hpa, hqa, if_true, List.length_cons]
        exact Nat.succ_le_succ (ih htl)
      · simp only [List.map_cons, List.filter_cons, hpa, if_false, Bool.false_eq_true]
        refine le_trans (ih htl) ?_
        by_cases hqa : q a = true
        · simp only [hqa, if_true, List.length_cons]
          exact Nat.le_succ _
        · simp only [hqa, if_false, Bool.false_eq_true]
          exact le_refl _

/-- Helper: under pairwise-distinct keys, at most one list element carries
any given key. -/
theorem length_filter_key_le_one {α : Type} (g : α → String) :
    ∀ xs : List α, (xs.map g).Nodup → ∀ n, (xs.filter (fun a => g a = n)).length ≤ 1 := by
  intro xs
  induction xs with
  | nil => intro _ n; simp
  | cons a tl ih =>
      intro hnd n
      rw [List.map_cons, List.nodup_cons] at hnd
      by_cases hga : g a = n
      · have hmem : ∀ b ∈ tl, ¬(g b = n) := by
          intro b hb hbn
          exact hnd.1 (by rw [hga, ← hbn]; exact List.mem_map_of_mem g hb)
        have hempty : tl.filter (fun b => decide (g b = n)) = [] := by
          rw [List.filter_eq_nil_iff]
          intro b hb
          simpa using hmem b hb
        simp [List.filter_cons, hga, hempty]
      · simp only [List.filter_cons, decide_eq_true_eq, hga, if_false, Bool.false_eq_true]
        exact ih hnd.2 n

/-- Helper: the customer backfill leaves the name alone. -/
theorem setCustomer_name (auths : List ACHAuthorization) (txn : ACHTransaction) :
    (setCustomerFromAuthorization auths txn).name = txn.name := by
  unfold setCustomerFromAuthorization
  split <;> rfl

/-- Helper: the customer backfill leaves the status alone. -/
theorem setCustomer_status (auths : List ACHAuthorization) (txn : ACHTransaction) :
    (setCustomerFromAuthorization auths txn).status = txn.status := by
  unfold setCustomerFromAuthorization
  split <;> rfl

/-- Helper: the customer backfill leaves the amount alone. -/
theorem setCustomer_amount (auths : List ACHAuthorization) (txn : ACHTransaction) :
    (setCustomerFromAuthorization auths txn).amount = txn.amount := by
  unfold setCustomerFromAuthorization
  split <;> rfl

/-- Helper: the customer backfill leaves the loan alone. -/
theorem setCustomer_loan (auths : List ACHAuthorization) (txn : ACHTransaction) :
    (setCustomerFromAuthorization auths txn).loan = txn.loan := by
  unfold setCustomerFromAuthorization
  split <;> rfl

/-- Helper: the customer backfill leaves the retry attempt alone. -/
theorem setCustomer_retryAttempt (auths : List ACHAuthorization) (txn : ACHTransaction) :
    (setCustomerFromAuthorization auths txn).retryAttempt = txn.retryAttempt := by
  unfold setCustomerFromAuthorization
  split <;> rfl

/-- Helper: the customer backfill leaves the retry cap alone. -/
theorem setCustomer_maxRetries (auths : List ACHAuthorization) (txn : ACHTransaction) :
    (setCustomerFromAuthorization auths txn).maxRetries = txn.maxRetries := by
  unfold setCustomerFromAuthorization
  split <;> rfl

/-- Helper: the customer backfill leaves the pending retry date alone. -/
theorem setCustomer_nextRetryDate (auths : List ACHAuthorization) (txn : ACHTransaction) :
    (setCustomerFromAuthorization auths txn).nextRetryDate = txn.nextRetryDate := by
  unfold setCustomerFromAuthorization
  split <;> rfl

/-- Helper: the customer backfill leaves the chain root alone. -/
theorem setCustomer_originalTransaction (auths : List ACHAuthorization)
    (txn : ACHTransaction) :
    (setCustomerFromAuthorization auths txn).originalTransaction =
      txn.originalTransaction := by
  unfold setCustomerFromAuthorization
  split <;> rfl

/-- Helper: the customer backfill leaves the notification flag alone. -/
theorem setCustomer_notificationSent (auths : List ACHAuthorization)
    (txn : ACHTransaction) :
    (setCustomerFromAuthorization auths txn).notificationSent = txn.notificationSent := by
  unfold setCustomerFromAuthorization
  split <;> rfl

/-- Helper: the customer field is untouched when already set. -/
theorem setCustomer_customer_of_ne (auths : List ACHAuthorization) (txn : ACHTransaction)
    (h : txn.customer ≠ "") :
    (setCustomerFromAuthorization auths txn).customer = txn.customer := by
  unfold setCustomerFromAuthorization
  rw [if_neg]
  simp [h]

/-- Helper: the customer backfill is the identity on a transaction whose
customer is set. -/
theorem setCustomer_of_customer_ne (auths : List ACHAuthorization) (txn : ACHTransaction)
    (h : txn.customer ≠ "") : setCustomerFromAuthorization auths txn = txn := by
  unfold setCustomerFromAuthorization
  rw [if_neg]
  simp [h]

/-- Helper: the insert-time max-retries backfill is the identity on a
nonzero max_retries. -/
theorem setMaxRetries_of_ne (settings : ACHSettings) (txn : ACHTransaction)
    (h : txn.maxRetries ≠ 0) : setMaxRetriesFromSettings settings txn = txn := by
  unfold setMaxRetriesFromSettings
  rw [if_neg h]

/-- C7: create_retry_transaction fails at the attempt cap and against a
non-Active (or missing) authorization; on success, the new transaction
carries attempt plus one, the same max_retries, amount, loan and customer,
Scheduled status, and the root of the retry chain (the predecessor's
original_transaction when truthy, else the predecessor itself), while the
saved predecessor's next_retry_date is cleared. -/
theorem create_retry_transaction_spec :
    (∀ (env : Env) (db : DB) (txn : ACHTransaction),
      txn.retryAttempt ≥ txn.maxRetries →
      exOk (create_retry_transaction env db txn) = false) ∧
    (∀ (env : Env) (db : DB) (txn : ACHTransaction),
      db.authStatus txn.achAuthorization ≠ some AuthStatus.Active →
      exOk (create_retry_transaction env db txn) = false) ∧
    (∀ (env : Env) (db : DB) (txn : ACHTransaction)
      (res : DB × ACHTransaction × ACHTransaction),
      create_retry_transaction env db txn = Except.ok res →
      txn.retryAttempt < txn.maxRetries ∧
      db.authStatus txn.achAuthorization = some AuthStatus.Active ∧
      res.2.2.retryAttempt = txn.retryAttempt + 1 ∧
      res.2.2.maxRetries = txn.maxRetries ∧
      res.2.2.amount = txn.amount ∧
      res.2.2.loan = txn.loan ∧
      (txn.customer ≠ "" → res.2.2.customer = txn.customer) ∧
      res.2.2.originalTransaction = some (orElseStr txn.originalTransaction txn.name) ∧
      res.2.2.status = TxnStatus.Scheduled ∧
      res.2.1.name = txn.name ∧
      res.2.1.nextRetryDate = none) := by
  refine ⟨?_, ?_, ?_⟩
  · intro env db txn h
    unfold create_retry_transaction
    rw [if_pos h]
    rfl
  · intro env db txn h
    unfold create_retry_transaction
    by_cases hmax : txn.retryAttempt ≥ txn.maxRetries
    · rw [if_pos hmax]; rfl
    · rw [if_neg hmax]
      cases hfind : db.auths.find? (fun a => a.name = txn.achAuthorization) with
      | none => rfl
      | some auth =>
          have hstat : auth.status ≠ AuthStatus.Active := by
            intro hc
            exact h (by rw [DB.authStatus, hfind]; simp [hc])
          simp only []
          rw [if_pos hstat]
          rfl
  · intro env db txn res h
    unfold create_retry_transaction at h
    by_cases hmax : txn.retryAttempt ≥ txn.maxRetries
    · rw [if_pos hmax] at h
      exact absurd h (by simp)
    · rw [if_neg hmax] at h
      cases hfind : db.auths.find? (fun a => a.name = txn.achAuthorization) with
      | none => rw [hfind] at h; exact absurd h (by simp)
      | some auth =>
          rw [hfind] at h
          simp only [] at h
          by_cases hstat : auth.status = AuthStatus.Active
          · rw [if_neg (by simp [hstat])] at h
            have hmr : txn.maxRetries ≠ 0 := by omega
            simp only [DB.insertTxn, DB.saveTxn, Except.ok.injEq] at h
            rw [← h]
            rw [setMaxRetries_of_ne env.settings (setCustomerFromAuthorization db.auths _)
              (by rw [setCustomer_maxRetries]; exact hmr)]
            refine ⟨Nat.lt_of_not_ge hmax,
              by rw [DB.authStatus, hfind]; simp [hstat], ?_, ?_, ?_, ?_,
              ?_, ?_, ?_, ?_, ?_⟩
            · exact setCustomer_retryAttempt db.auths _
            · exact setCustomer_maxRetries db.auths _
            · exact setCustomer_amount db.auths _
            · exact setCustomer_loan db.auths _
            · intro hc
              exact setCustomer_customer_of_ne db.auths _ hc
            · exact setCustomer_originalTransaction db.auths _
            · exact setCustomer_status db.auths _
            · exact setCustomer_name _ _
            · exact setCustomer_nextRetryDate _ _
          · rw [if_pos hstat] at h
            exact absurd h (by simp)

/-- Witness for create_retry_transaction_spec: a capped transaction is
rejected; the Failed fixture transaction below the cap with an Active
authorization yields a retry carrying attempt 1 and the predecessor as
chain root. -/
theorem create_retry_transaction_spec_witness :
    exOk (create_retry_transaction baseEnv baseDB
      { baseTxn with retryAttempt := 3 }) = false ∧
    (okValue (create_retry_transaction baseEnv futureRetryDB failedFutureTxn)
      fallbackTriple).2.2.retryAttempt = failedFutureTxn.retryAttempt + 1 ∧
    (okValue (create_retry_transaction baseEnv futureRetryDB failedFutureTxn)
      fallbackTriple).2.2.customer = failedFutureTxn.customer ∧
    (okValue (create_retry_transaction baseEnv futureRetryDB failedFutureTxn)
      fallbackTriple).2.2.originalTransaction = some "T1" ∧
    (okValue (create_retry_transaction baseEnv futureRetryDB failedFutureTxn)
      fallbackTriple).2.1.nextRetryDate = none := by
  have h : create_retry_transaction baseEnv futureRetryDB failedFutureTxn =
      Except.ok (okValue (create_retry_transaction baseEnv futureRetryDB failedFutureTxn)
        fallbackTriple) := rfl
  have hs := create_retry_transaction_spec.2.2 baseEnv futureRetryDB failedFutureTxn _ h
  exact ⟨create_retry_transaction_spec.1 baseEnv baseDB _ (by decide),
    hs.2.2.1, hs.2.2.2.2.2.2.1 (by decide), hs.2.2.2.2.2.2.2.1, hs.2.2.2.2.2.2.2.2.2.2⟩

/-- C3 counterexample: in the multi-account app, resume performs no
duplicate-Active re-check: resuming the Paused authorization A2 succeeds
although the Active authorization A1 exists for the same customer and the
same loan value, leaving two Active authorizations in that scope. -/
theorem resume_multiaccount_skips_recheck :
    exOk (resume_multiaccount twoAuthDB pausedAuth2) = true ∧
    ((exceptDB (resume_multiaccount twoAuthDB pausedAuth2) twoAuthDB).auths.filter
      (fun a => a.loan = some "L1" ∧ a.status = AuthStatus.Active)).length = 2 := by
  decide

/-- C3 amended: in the single-binding app, resume succeeds only on a Paused
authorization, re-checks that no other Active authorization exists for the
same loan, failing if one does, and (for a name-keyed store) preserves the
at-most-one-Active-per-loan invariant; in the multi-account app, resume
succeeds exactly on a Paused authorization, with no duplicate-Active
re-check. -/
theorem resume_spec_amended :
    (∀ (db : DB) (auth : ACHAuthorization) (r : DB × ACHAuthorization),
      ACHAuthorization.resume db auth = Except.ok r →
      auth.status = AuthStatus.Paused ∧
      db.auths.any (fun a => a.loan = auth.loan ∧ a.status = AuthStatus.Active ∧
        a.name ≠ auth.name) = false ∧
      r.2.status = AuthStatus.Active) ∧
    (∀ (db : DB) (auth : ACHAuthorization),
      auth.status = AuthStatus.Paused →
      db.auths.any (fun a => a.loan = auth.loan ∧ a.status = AuthStatus.Active ∧
        a.name ≠ auth.name) = true →
      exOk (ACHAuthorization.resume db auth) = false) ∧
    (∀ (db : DB) (auth : ACHAuthorization) (db2 : DB) (auth2 : ACHAuthorization),
      ACHAuthorization.resume db auth = Except.ok (db2, auth2) →
      (db.auths.map (fun a => a.name)).Nodup → atMostOneActivePerLoan db →
      atMostOneActivePerLoan db2) ∧
    (∀ (db : DB) (auth : ACHAuthorization),
      exOk (resume_multiaccount db auth) = true ↔ auth.status = AuthStatus.Paused) := by
  have hresume : ∀ (db : DB) (auth : ACHAuthorization) (r : DB × ACHAuthorization),
      ACHAuthorization.resume db auth = Except.ok r →
      auth.status = AuthStatus.Paused ∧
      db.auths.any (fun a => a.loan = auth.loan ∧ a.status = AuthStatus.Active ∧
        a.name ≠ auth.name) = false ∧
      r.1 = { db with auths := db.auths.map (fun a =>
        if a.name = auth.name then { auth with status := AuthStatus.Active } else a) } ∧
      r.2 = { auth with status := AuthStatus.Active } := by
    intro db auth r h
    unfold ACHAuthorization.resume at h
    by_cases h1 : auth.status = AuthStatus.Paused
    · rw [if_neg (by simp [h1])] at h
      by_cases h2 : db.auths.any (fun a => a.loan = auth.loan ∧
          a.status = AuthStatus.Active ∧ a.name ≠ auth.name) = true
      · rw [if_pos h2] at h
        exact absurd h (by simp)
      · rw [if_neg h2] at h
        unfold DB.saveAuthSingle at h
        cases hv1 : validate_loan_customer db.loans { auth with status := AuthStatus.Active } with
        | error e => rw [hv1] at h; exact absurd h (by simp)
        | ok u =>
            rw [hv1] at h
            cases hv2 : validate_unique_active_authorization db.auths
                { auth with status := AuthStatus.Active } with
            | error e => rw [hv2] at h; exact absurd h (by simp)
            | ok u2 =>
                rw [hv2] at h
                have := Except.ok.inj h
                refine ⟨h1, by simpa using h2, ?_, ?_⟩
                · rw [← this]
                · rw [← this]
    · rw [if_pos (by simp [h1])] at h
      exact absurd h (by simp)
  refine ⟨?_, ?_, ?_, ?_⟩
  · intro db auth r h
    obtain ⟨ha, hb, _, hc⟩ := hresume db auth r h
    exact ⟨ha, hb, by rw [hc]⟩
  · intro db auth h1 h2
    unfold ACHAuthorization.resume
    rw [if_neg (by simp [h1]), if_pos h2]
    rfl
  · intro db auth db2 auth2 h hnd hinv
    obtain ⟨h1, h2, hdb, _⟩ := hresume db auth (db2, auth2) h
    intro l
    rw [show db2.auths = db.auths.map (fun a =>
      if a.name = auth.name then { auth with status := AuthStatus.Active } else a) from
      congrArg DB.auths hdb]
    by_cases hl : l = auth.loan
    · refine le_trans (length_filter_map_le _ _ (fun a => a.name = auth.name) db.auths ?_)
        (length_filter_key_le_one (fun a => a.name) db.auths hnd auth.name)
      intro a ha hpa
      by_cases hn : a.name = auth.name
      · simp [hn]
      · rw [if_neg hn] at hpa
        exfalso
        simp only [decide_eq_true_eq] at hpa
        have hany : db.auths.any (fun a => a.loan = auth.loan ∧
            a.status = AuthStatus.Active ∧ a.name ≠ auth.name) = true := by
          rw [List.any_eq_true]
          refine ⟨a, ha, ?_⟩
          simp only [decide_eq_true_eq]
          exact ⟨hpa.1.trans hl, hpa.2, hn⟩
        rw [h2] at hany
        exact absurd hany (by simp)
    · refine le_trans (length_filter_map_le _ _
        (fun a => a.loan = l ∧ a.status = AuthStatus.Active) db.auths ?_) (hinv l)
      intro a ha hpa
      by_cases hn : a.name = auth.name
      · rw [if_pos hn] at hpa
        simp only [decide_eq_true_eq] at hpa
        exact absurd hpa.1.symm hl
      · rw [if_neg hn] at hpa
        exact hpa
  · intro db auth
    unfold resume_multiaccount
    by_cases h1 : auth.status = AuthStatus.Paused
    · rw [if_neg (by simp [h1])]
      simp [exOk, h1]
    · rw [if_pos (by simp [h1])]
      simp [exOk, h1]

/-- Witness for resume_spec_amended: the single-binding resume is rejected
when another Active authorization exists for loan L1, and a successful
resume on the solo store preserves the at-most-one-Active invariant. -/
theorem resume_spec_amended_witness :
    exOk (ACHAuthorization.resume twoAuthDB pausedAuth2) = false ∧
    atMostOneActivePerLoan
      (exceptDB (ACHAuthorization.resume soloPausedDB pausedAuth2) soloPausedDB) := by
  constructor
  · exact resume_spec_amended.2.1 twoAuthDB pausedAuth2 (by decide) (by decide)
  · have h : ACHAuthorization.resume soloPausedDB pausedAuth2 =
        Except.ok ({ soloPausedDB with
          auths := [{ pausedAuth2 with status := AuthStatus.Active }] },
          { pausedAuth2 with status := AuthStatus.Active }) := by rfl
    have hres := resume_spec_amended.2.2.1 soloPausedDB pausedAuth2 _ _ h (by decide)
      (fun l => le_trans (List.length_filter_le _ _) (by decide))
    rw [h]
    exact hres

/-- C5: override resolution fails closed. With a loan-level override present:
the Active override is returned, a non-Active override yields none with no
fallback to the customer default. With no override, the customer's default
Active authorization is returned (the default finder only ever returns a
default Active authorization of that customer), and none when no such
default exists. -/
theorem get_loan_payment_account_spec :
    (∀ (db : DB) (loan : String) (loanDoc : Loan) (auth : ACHAuthorization),
      db.loans.find? (fun l => l.name = loan) = some loanDoc →
      truthyStr loanDoc.achPaymentAccount = true →
      db.auths.find? (fun a => a.name = loanDoc.achPaymentAccount.getD "") = some auth →
      (auth.status = AuthStatus.Active →
        get_loan_payment_account db loan = Except.ok (some auth)) ∧
      (auth.status ≠ AuthStatus.Active →
        get_loan_payment_account db loan = Except.ok none)) ∧
    (∀ (db : DB) (loan : String) (loanDoc : Loan),
      db.loans.find? (fun l => l.name = loan) = some loanDoc →
      truthyStr loanDoc.achPaymentAccount = false →
      get_loan_payment_account db loan =
        Except.ok (get_customer_default_authorization db.auths loanDoc.applicant)) ∧
    (∀ (auths : List ACHAuthorization) (customer : String) (auth : ACHAuthorization),
      get_customer_default_authorization auths customer = some auth →
      auth.customer = customer ∧ auth.isDefault = true ∧ auth.status = AuthStatus.Active) ∧
    (∀ (auths : List ACHAuthorization) (customer : String),
      (∀ a ∈ auths,
        ¬(a.customer = customer ∧ a.isDefault = true ∧ a.status = AuthStatus.Active)) →
      get_customer_default_authorization auths customer = none) := by
  refine ⟨?_, ?_, ?_, ?_⟩
  · intro db loan loanDoc auth h1 h2 h3
    constructor
    · intro hact
      unfold get_loan_payment_account
      rw [h1]
      simp only [h2, if_true, h3, hact, if_pos rfl]
    · intro hact
      unfold get_loan_payment_account
      rw [h1]
      simp only [h2, if_true, h3]
      rw [if_neg hact]
  · intro db loan loanDoc h1 h2
    unfold get_loan_payment_account
    rw [h1]
    simp only [h2, Bool.false_eq_true, if_false]
  · intro auths customer auth h
    have := List.find?_some h
    simpa using this
  · intro auths customer h
    unfold get_customer_default_authorization
    rw [List.find?_eq_none]
    intro a ha
    simpa using h a ha

/-- Witness for get_loan_payment_account_spec: the loan with a Paused
override resolves to none (no fallback), and the loan without an override
resolves to the customer's default lookup. -/
theorem get_loan_payment_account_spec_witness :
    get_loan_payment_account resolveDB "L2" = Except.ok none ∧
    get_loan_payment_account resolveDB "L3" =
      Except.ok (get_customer_default_authorization resolveDB.auths "CUST1") := by
  constructor
  · exact (get_loan_payment_account_spec.1 resolveDB "L2" overrideLoan pausedOverrideAuth
      (by decide) (by decide) (by decide)).2 (by decide)
  · exact get_loan_payment_account_spec.2.1 resolveDB "L3" plainLoan (by decide) (by decide)

/-- Helper: find? by name after replacing every name-matched element finds
the replacement, provided the name was present. -/
theorem find?_name_replace (l : List ACHTransaction) (v : ACHTransaction) (n : String)
    (hv : v.name = n) (h : (l.find? (fun t => t.name = n)).isSome = true) :
    (l.map (fun t => if t.name = v.name then v else t)).find?
      (fun t => t.name = n) = some v := by
  induction l with
  | nil => simp at h
  | cons a tl ih =>
      rw [List.map_cons]
      by_cases ha : a.name = n
      · rw [if_pos (by rw [hv]; exact ha)]
        exact List.find?_cons_of_pos _ (by simp [hv])
      · rw [if_neg (by rw [hv]; exact ha)]
        rw [List.find?_cons_of_neg _ (by simp [ha])]
        rw [List.find?_cons_of_neg _ (by simp [ha])] at h
        exact ih h

/-- Helper: saving a document stored under name n keeps it present, leaves
the other collections alone, and makes the stored status the saved
document's status. -/
theorem saveTxn_txnStatus (db : DB) (txn : ACHTransaction) (n : String)
    (hn : txn.name = n) (h : (db.txns.find? (fun t => t.name = n)).isSome = true) :
    (DB.saveTxn db txn).1.txnStatus n = some (DB.saveTxn db txn).2.status ∧
    (DB.saveTxn db txn).2.status = txn.status ∧
    (DB.saveTxn db txn).2.name = n ∧
    ((DB.saveTxn db txn).1.txns.find? (fun t => t.name = n)).isSome = true ∧
    (DB.saveTxn db txn).1.auths = db.auths ∧
    (DB.saveTxn db txn).2 = setCustomerFromAuthorization db.auths txn := by
  have hv : (setCustomerFromAuthorization db.auths txn).name = n := by
    rw [setCustomer_name]; exact hn
  have hf := find?_name_replace db.txns (setCustomerFromAuthorization db.auths txn) n hv h
  refine ⟨?_, ?_, hv, ?_, rfl, rfl⟩
  · unfold DB.txnStatus DB.saveTxn
    simp only []
    rw [hf, Option.map_some']
  · exact setCustomer_status db.auths txn
  · unfold DB.saveTxn
    simp only []
    rw [hf]
    rfl

/-- Helper: send_notification keeps the stored status of a present, already
status-consistent transaction at the document's status, and keeps the
record present. -/
theorem send_notification_txnStatus (env : Env) (db : DB) (txn : ACHTransaction)
    (k n : String) (hname : txn.name = n)
    (hst : db.txnStatus n = some txn.status)
    (hpres : (db.txns.find? (fun t => t.name = n)).isSome = true) :
    (send_notification env db txn k).1.txnStatus n = some txn.status ∧
    ((send_notification env db txn k).1.txns.find?
      (fun t => t.name = n)).isSome = true := by
  unfold send_notification
  by_cases h1 : ¬((k = "success" ∧ env.settings.sendSuccessNotification) ∨
      (k = "failure" ∧ env.settings.sendFailureNotification) ∨
      (k = "upcoming" ∧ env.settings.sendUpcomingDebitNotification))
  · rw [if_pos h1]
    exact ⟨hst, hpres⟩
  · rw [if_neg h1]
    by_cases h2 : truthyStr (env.customerEmail txn.customer) = true
    · rw [if_neg (by simp [h2])]
      by_cases h3 : env.emailOk = true
      · rw [if_pos h3]
        have hs := saveTxn_txnStatus
          { db with sentEmails := db.sentEmails ++ [(txn.name, k)] }
          { txn with notificationSent := true } n hname hpres
        exact ⟨hs.1.trans (congrArg some hs.2.1), hs.2.2.2.1⟩
      · rw [if_neg h3]
        exact ⟨hst, hpres⟩
    · rw [if_pos (by simpa using h2)]
      exact ⟨hst, hpres⟩

/-- Helper: the retry-scheduling and notification tail of mark_failed leaves
the stored status at the saved document's status. -/
theorem markFailedTail_status (env : Env) (saved : DB × ACHTransaction)
    (rc : Option String) (n : String) (hname : saved.2.name = n)
    (hst : saved.1.txnStatus n = some saved.2.status)
    (hpres : (saved.1.txns.find? (fun t => t.name = n)).isSome = true) :
    (markFailedTail env saved rc).1.txnStatus n = some saved.2.status := by
  unfold markFailedTail
  by_cases hsr : saved.2.should_retry rc = true
  · rw [if_pos hsr]
    unfold schedule_retry
    have hs2 := saveTxn_txnStatus saved.1
      { saved.2 with nextRetryDate := some (env.today + env.settings.retryDelayDays) } n
      hname hpres
    set p := DB.saveTxn saved.1
      { saved.2 with nextRetryDate := some (env.today + env.settings.retryDelayDays) }
      with hp
    by_cases hns : p.2.notificationSent = true
    · rw [if_neg (by simp [hns])]
      exact hs2.1.trans (congrArg some hs2.2.1)
    · rw [if_pos (by simpa using hns)]
      have hpst : p.1.txnStatus n = some p.2.status := hs2.1
      rw [(send_notification_txnStatus env p.1 p.2 "failure" n hs2.2.2.1 hpst
        hs2.2.2.2.1).1]
      exact congrArg some hs2.2.1
  · rw [if_neg hsr]
    by_cases hns : saved.2.notificationSent = true
    · rw [if_neg (by simp [hns])]
      exact hst
    · rw [if_pos (by simpa using hns)]
      exact (send_notification_txnStatus env saved.1 saved.2 "failure" n hname hst
        hpres).1

/-- Helper: mark_failed applied with a falsy (absent or empty) return code
sets the stored copy of the target transaction to Failed. -/
theorem mark_failed_falsy_rc_status (env : Env) (db : DB) (txn : ACHTransaction)
    (fc fr rc : Option String) (hrc : truthyStr rc = false)
    (h : (db.txns.find? (fun t => t.name = txn.name)).isSome = true) :
    (mark_failed env db txn fc fr rc).1.txnStatus txn.name = some TxnStatus.Failed := by
  unfold mark_failed
  simp only [hrc, Bool.false_eq_true, if_false]
  refine Eq.trans (markFailedTail_status env (DB.saveTxn db _) rc txn.name
    ?_ ?_ ?_) ?_
  · exact setCustomer_name db.auths _
  · exact (saveTxn_txnStatus db _ txn.name (by rfl) h).1
  · exact (saveTxn_txnStatus db _ txn.name (by rfl) h).2.2.2.1
  · exact congrArg some (saveTxn_txnStatus db _ txn.name (by rfl) h).2.1

/-- Helper: when both identifiers are falsy the webhook resolution finds
nothing. -/
theorem findWebhookTxn_of_falsy (db : DB) (m t : Option String)
    (hm : truthyStr m = false) (ht : truthyStr t = false) :
    findWebhookTxn db m t = none := by
  unfold findWebhookTxn
  simp only [hm, Bool.false_eq_true, if_false]
  simp [ht]

/-- Helper: a webhook-resolved transaction is stored under its own name. -/
theorem findWebhookTxn_presence (db : DB) (m t : Option String) (txn : ACHTransaction)
    (h : findWebhookTxn db m t = some txn) :
    (db.txns.find? (fun x => x.name = txn.name)).isSome = true := by
  have hmem : txn ∈ db.txns := by
    unfold findWebhookTxn at h
    simp only [] at h
    by_cases hm : truthyStr m = true
    · rw [if_pos hm] at h
      cases hf : db.txns.find? (fun x => x.name = m.getD "") with
      | some u =>
          rw [hf] at h
          simp only [Option.some.injEq] at h
          exact h ▸ List.mem_of_find?_eq_some hf
      | none =>
          rw [hf] at h
          simp only [] at h
          by_cases ht : truthyStr t = true
          · rw [if_pos ht] at h
            exact List.mem_of_find?_eq_some h
          · rw [if_neg ht] at h
            cases h
    · rw [if_neg hm] at h
      simp only [] at h
      by_cases ht : truthyStr t = true
      · rw [if_pos ht] at h
        exact List.mem_of_find?_eq_some h
      · rw [if_neg ht] at h
        cases h
  rw [List.find?_isSome]
  exact ⟨txn, hmem, by simp⟩

/-- C10: a webhook payload reporting a returned-family status whose
ReturnCode field is missing or empty drives the resolved transaction to
Failed, not Returned, since mark_failed only sets Returned when passed a
truthy return code. -/
theorem webhook_returned_empty_code_goes_failed :
    ∀ (env : Env) (db : DB) (payload : WebhookPayload) (txn : ACHTransaction),
      findWebhookTxn db payload.merchantReferenceID payload.transactionID = some txn →
      (pyLower (payload.paymentStatus.getD "") = "returned" ∨
        pyLower (payload.paymentStatus.getD "") = "returned-nsf" ∨
        pyLower (payload.paymentStatus.getD "") = "returned-other" ∨
        pyLower (payload.paymentStatus.getD "") = "chargedback") →
      truthyStr payload.returnCode = false →
      (achq_webhook env db payload).1.txnStatus txn.name = some TxnStatus.Failed := by
  intro env db payload txn hfind hps hrc
  have hpres := findWebhookTxn_presence db _ _ txn hfind
  unfold achq_webhook
  have hnotboth : ¬(¬truthyStr payload.transactionID = true ∧
      ¬truthyStr payload.merchantReferenceID = true) := by
    intro hcon
    rw [findWebhookTxn_of_falsy db _ _ (by simpa using hcon.2) (by simpa using hcon.1)]
      at hfind
    cases hfind
  rw [if_neg hnotboth, hfind]
  simp only []
  rcases hps with h|h|h|h <;>
    rw [h] <;>
    rw [if_neg (by decide), if_pos (by decide)] <;>
    exact mark_failed_falsy_rc_status env db _ _ _ _ hrc hpres

/-- Witness for webhook_returned_empty_code_goes_failed: a Returned-NSF
payload carrying no ReturnCode lands the Scheduled fixture transaction in
Failed. -/
theorem webhook_returned_empty_code_goes_failed_witness :
    (achq_webhook baseEnv baseDB
      { transactionID := some "Q1", merchantReferenceID := some "T1",
        paymentStatus := some "Returned-NSF", returnCode := some "",
        returnDescription := none }).1.txnStatus "T1" = some TxnStatus.Failed := by
  exact webhook_returned_empty_code_goes_failed baseEnv baseDB
    { transactionID := some "Q1", merchantReferenceID := some "T1",
      paymentStatus := some "Returned-NSF", returnCode := some "",
      returnDescription := none } baseTxn (by decide) (by decide) (by decide)

/-- Helper: tokenize_and_verify reports exactly the processor's success
flag. -/
theorem tokenize_success_eq (resp : RawTokenResponse) (r a : String) :
    (tokenize_and_verify resp r a).success = resp.success := by
  unfold tokenize_and_verify
  by_cases h : resp.success = true <;> simp [h]

/-- Helper: the graded verification status extracted by tokenize_and_verify
is rawVerifyStatus on a successful response, UNK otherwise. -/
theorem tokenize_verifyStatus_eq (resp : RawTokenResponse) (r a : String) :
    (tokenize_and_verify resp r a).verifyStatus =
      if resp.success = true then rawVerifyStatus resp else "UNK" := by
  unfold tokenize_and_verify rawVerifyStatus
  by_cases h : resp.success = true
  · simp only [h, if_true]
    cases hev : resp.expressVerify with
    | none => simp
    | some ev => cases ev <;> simp
  · simp [h]

/-- Helper: on a successful response tokenize_and_verify passes the token
through and masks the submitted identifiers to their last four digits. -/
theorem tokenize_success_fields (resp : RawTokenResponse) (r a : String)
    (h : resp.success = true) :
    (tokenize_and_verify resp r a).token = resp.achqToken ∧
    (tokenize_and_verify resp r a).routingLast4 = last4 r ∧
    (tokenize_and_verify resp r a).accountLast4 = last4 a := by
  unfold tokenize_and_verify
  simp [h]

/-- Helper: a weaker predicate inherits an any-eq-false bound. -/
theorem any_eq_false_mono {α : Type} (p q : α → Bool) (l : List α)
    (himp : ∀ x ∈ l, q x = true → p x = true) (h : l.any p = false) :
    l.any q = false := by
  rw [List.any_eq_false] at h ⊢
  intro x hx hq
  exact h x hx (himp x hx hq)

/-- Helper: the shape of a successful single-binding authorization insert. -/
theorem insertAuthSingle_ok_shape (db : DB) (auth : ACHAuthorization)
    (p : DB × ACHAuthorization) (h : DB.insertAuthSingle db auth = Except.ok p) :
    p.1 = { db with
      auths := db.auths ++ [{ auth with name := "AUTH-" ++ toString db.seq }]
      seq := db.seq + 1 } ∧
    p.2 = { auth with name := "AUTH-" ++ toString db.seq } := by
  unfold DB.insertAuthSingle at h
  simp only [] at h
  cases h1 : validate_loan_customer db.loans { auth with name := "AUTH-" ++ toString db.seq }
    with
  | error e => rw [h1] at h; cases h
  | ok u =>
      rw [h1] at h
      simp only [] at h
      cases h2 : validate_unique_active_authorization db.auths
          { auth with name := "AUTH-" ++ toString db.seq } with
      | error e => rw [h2] at h; cases h
      | ok u2 =>
          rw [h2] at h
          simp only [Except.ok.injEq] at h
          rw [← h]
          exact ⟨rfl, rfl⟩

/-- Helper: the single-binding setup rejects any routing number that does
not strip to exactly nine digits. -/
theorem setupSingle_rejects_bad_routing (env : Env) (db : DB)
    (c l r a t : String) (resp : RawTokenResponse)
    (h : ¬(pyIsDigit (pyStrip r) = true ∧ (pyStrip r).length = 9)) :
    exOk (setup_bank_account env db c l r a t resp) = false := by
  unfold setup_bank_account
  by_cases h0 : c = "" ∨ l = "" ∨ r = "" ∨ a = ""
  · rw [if_pos h0]
    rfl
  · rw [if_neg h0, if_pos h]
    rfl

/-- Helper: the single-binding setup rejects any account number that does
not strip to four to seventeen digits. -/
theorem setupSingle_rejects_bad_account (env : Env) (db : DB)
    (c l r a t : String) (resp : RawTokenResponse)
    (h : ¬(pyIsDigit (pyStrip a) = true ∧ 4 ≤ (pyStrip a).length ∧
      (pyStrip a).length ≤ 17)) :
    exOk (setup_bank_account env db c l r a t resp) = false := by
  unfold setup_bank_account
  by_cases h0 : c = "" ∨ l = "" ∨ r = "" ∨ a = ""
  · rw [if_pos h0]
    rfl
  · rw [if_neg h0]
    by_cases h2 : ¬(pyIsDigit (pyStrip r) = true ∧ (pyStrip r).length = 9)
    · rw [if_pos h2]
      rfl
    · rw [if_neg h2]
      by_cases h3 : ¬pyIsDigit (pyStrip a) = true
      · rw [if_pos h3]
        rfl
      · rw [if_neg h3]
        have hd : pyIsDigit (pyStrip a) = true := not_not.mp h3
        have hlen : ¬(4 ≤ (pyStrip a).length ∧ (pyStrip a).length ≤ 17) :=
          fun hcon => h ⟨hd, hcon.1, hcon.2⟩
        rw [if_pos (by omega)]
        rfl

/-- Helper: the single-binding setup rejects a negatively verified account
whatever the policy settings. -/
theorem setupSingle_rejects_neg (env : Env) (db : DB)
    (c l r a t : String) (resp : RawTokenResponse)
    (h : rawVerifyStatus resp = "NEG") :
    exOk (setup_bank_account env db c l r a t resp) = false := by
  unfold setup_bank_account
  by_cases h0 : c = "" ∨ l = "" ∨ r = "" ∨ a = ""
  · rw [if_pos h0]
    rfl
  rw [if_neg h0]
  by_cases h2 : ¬(pyIsDigit (pyStrip r) = true ∧ (pyStrip r).length = 9)
  · rw [if_pos h2]
    rfl
  rw [if_neg h2]
  by_cases h3 : ¬pyIsDigit (pyStrip a) = true
  · rw [if_pos h3]
    rfl
  rw [if_neg h3]
  by_cases h4 : (pyStrip a).length < 4 ∨ (pyStrip a).length > 17
  · rw [if_pos h4]
    rfl
  rw [if_neg h4]
  by_cases h5 : loanApplicant db.loans l ≠ some c
  · rw [if_pos h5]
    rfl
  rw [if_neg h5]
  by_cases h6 : db.auths.any
      (fun x => x.loan = some l ∧ x.status = AuthStatus.Active) = true
  · rw [if_pos h6]
    rfl
  rw [if_neg h6]
  by_cases h7 : ¬env.settings.enableAchAutopay = true
  · rw [if_pos h7]
    rfl
  rw [if_neg h7]
  by_cases h8 : ¬(tokenize_and_verify resp (pyStrip r) (pyStrip a)).success = true
  · rw [if_pos h8]
    rfl
  rw [if_neg h8]
  rw [tokenize_success_eq] at h8
  rw [tokenize_verifyStatus_eq, if_pos (not_not.mp h8)]
  rw [if_pos h]
  rfl

/-- Helper: the single-binding authorization insert succeeds for a
loan-bound Active authorization whose loan belongs to its customer and has
no other Active authorization. -/
theorem insertAuthSingle_isOk (db : DB) (auth : ACHAuthorization)
    (hl : truthyStr auth.loan = true)
    (hown : loanApplicant db.loans (auth.loan.getD "") = some auth.customer)
    (hst : auth.status = AuthStatus.Active)
    (hex : db.auths.any
      (fun x => x.loan = auth.loan ∧ x.status = AuthStatus.Active) = false) :
    exOk (DB.insertAuthSingle db auth) = true := by
  unfold DB.insertAuthSingle
  simp only []
  rw [show validate_loan_customer db.loans
      { auth with name := "AUTH-" ++ toString db.seq } = Except.ok () from ?_]
  rotate_left
  · unfold validate_loan_customer
    rw [if_pos hl, if_neg (not_not_intro hown)]
  simp only []
  rw [show validate_unique_active_authorization db.auths
      { auth with name := "AUTH-" ++ toString db.seq } = Except.ok () from ?_]
  rotate_left
  · unfold validate_unique_active_authorization
    rw [if_pos hst]
    rw [if_neg (by
      simp only [Bool.not_eq_true]
      refine any_eq_false_mono _ _ _ ?_ hex
      intro x hx hq
      simp only [decide_eq_true_eq] at hq ⊢
      exact ⟨hq.1, hq.2.1⟩)]
  rfl

/-- Helper: on a well-formed single-binding request with a successful
tokenization, setup succeeds exactly when verification is not negative and
an unknown grade is tolerated by policy. -/
theorem setupSingle_policy_iff (env : Env) (db : DB)
    (c l r a t : String) (resp : RawTokenResponse)
    (hc : c ≠ "") (hl : l ≠ "") (hr : r ≠ "") (ha : a ≠ "")
    (hrv : pyIsDigit (pyStrip r) = true ∧ (pyStrip r).length = 9)
    (hav : pyIsDigit (pyStrip a) = true ∧ 4 ≤ (pyStrip a).length ∧
      (pyStrip a).length ≤ 17)
    (hown : loanApplicant db.loans l = some c)
    (hex : db.auths.any (fun x => x.loan = some l ∧ x.status = AuthStatus.Active) = false)
    (hen : env.settings.enableAchAutopay = true)
    (hsucc : resp.success = true) :
    exOk (setup_bank_account env db c l r a t resp) = true ↔
      (rawVerifyStatus resp ≠ "NEG" ∧
        (rawVerifyStatus resp = "UNK" → env.settings.allowUnknownAccounts = true)) := by
  unfold setup_bank_account
  rw [if_neg (by simp [hc, hl, hr, ha])]
  rw [if_neg (not_not_intro hrv)]
  rw [if_neg (not_not_intro hav.1)]
  rw [if_neg (by rcases hav with ⟨_, h4, h17⟩; push_neg; omega)]
  rw [if_neg (not_not_intro hown)]
  rw [if_neg (by rw [hex]; decide)]
  rw [if_neg (by simp [hen])]
  rw [if_neg (by simp [tokenize_success_eq, hsucc])]
  rw [tokenize_verifyStatus_eq, if_pos hsucc]
  by_cases hneg : rawVerifyStatus resp = "NEG"
  · rw [if_pos hneg]
    simp [exOk, hneg]
  · rw [if_neg hneg]
    by_cases hpol : rawVerifyStatus resp = "UNK" ∧
        ¬env.settings.allowUnknownAccounts = true
    · rw [if_pos hpol]
      simp only [exOk]
      constructor
      · intro hfalse
        cases hfalse
      · intro hr2
        exact absurd (hr2.2 hpol.1) hpol.2
    · rw [if_neg hpol]
      have hok := insertAuthSingle_isOk db
        { name := "", customer := c, loan := some l, isDefault := false,
          status := AuthStatus.Active,
          bankName := (tokenize_and_verify resp (pyStrip r) (pyStrip a)).bankName.getD "",
          accountType := t,
          bankAccountLast4 :=
            (tokenize_and_verify resp (pyStrip r) (pyStrip a)).accountLast4,
          routingNumberLast4 :=
            (tokenize_and_verify resp (pyStrip r) (pyStrip a)).routingLast4,
          achqToken := (tokenize_and_verify resp (pyStrip r) (pyStrip a)).token,
          verificationStatus := rawVerifyStatus resp,
          consentCaptured := true, secCode := env.settings.defaultSecCode }
        (by simp [truthyStr, hl]) (by simpa using hown) rfl hex
      cases hins : DB.insertAuthSingle db
          { name := "", customer := c, loan := some l, isDefault := false,
            status := AuthStatus.Active,
            bankName := (tokenize_and_verify resp (pyStrip r) (pyStrip a)).bankName.getD "",
            accountType := t,
            bankAccountLast4 :=
              (tokenize_and_verify resp (pyStrip r) (pyStrip a)).accountLast4,
            routingNumberLast4 :=
              (tokenize_and_verify resp (pyStrip r) (pyStrip a)).routingLast4,
            achqToken := (tokenize_and_verify resp (pyStrip r) (pyStrip a)).token,
            verificationStatus := rawVerifyStatus resp,
            consentCaptured := true, secCode := env.settings.defaultSecCode } with
      | ok p =>
          simp only []
          simp only [exOk]
          constructor
          · intro _
            refine ⟨hneg, fun hu => ?_⟩
            by_cases hal : env.settings.allowUnknownAccounts = true
            · exact hal
            · exact absurd ⟨hu, hal⟩ hpol
          · intro _
            trivial
      | error e =>
          rw [hins] at hok
          simp [exOk] at hok

/-- Helper: a successful single-binding setup appends exactly one new Active
authorization holding only the last-4 masks and the opaque token. -/
theorem setupSingle_ok_shape (env : Env) (db : DB) (c l r a t : String)
    (resp : RawTokenResponse) (db2 : DB) (o : SetupOk)
    (h : setup_bank_account env db c l r a t resp = Except.ok (db2, o)) :
    resp.success = true ∧
    db2.auths = db.auths ++
      [{ name := "AUTH-" ++ toString db.seq, customer := c, loan := some l,
         isDefault := false, status := AuthStatus.Active,
         bankName := (tokenize_and_verify resp (pyStrip r) (pyStrip a)).bankName.getD "",
         accountType := t, bankAccountLast4 := last4 (pyStrip a),
         routingNumberLast4 := last4 (pyStrip r), achqToken := resp.achqToken,
         verificationStatus := rawVerifyStatus resp, consentCaptured := true,
         secCode := env.settings.defaultSecCode }] := by
  unfold setup_bank_account at h
  simp only [] at h
  by_cases g1 : c = "" ∨ l = "" ∨ r = "" ∨ a = ""
  · rw [if_pos g1] at h
    exact Except.noConfusion h
  rw [if_neg g1] at h
  by_cases g2 : ¬(pyIsDigit (pyStrip r) = true ∧ (pyStrip r).length = 9)
  · rw [if_pos g2] at h
    exact Except.noConfusion h
  rw [if_neg g2] at h
  by_cases g3 : ¬pyIsDigit (pyStrip a) = true
  · rw [if_pos g3] at h
    exact Except.noConfusion h
  rw [if_neg g3] at h
  by_cases g4 : (pyStrip a).length < 4 ∨ (pyStrip a).length > 17
  · rw [if_pos g4] at h
    exact Except.noConfusion h
  rw [if_neg g4] at h
  by_cases g5 : loanApplicant db.loans l ≠ some c
  · rw [if_pos g5] at h
    exact Except.noConfusion h
  rw [if_neg g5] at h
  by_cases g6 : db.auths.any
      (fun x => x.loan = some l ∧ x.status = AuthStatus.Active) = true
  · rw [if_pos g6] at h
    exact Except.noConfusion h
  rw [if_neg g6] at h
  by_cases g7 : ¬env.settings.enableAchAutopay = true
  · rw [if_pos g7] at h
    exact Except.noConfusion h
  rw [if_neg g7] at h
  by_cases g8 : ¬(tokenize_and_verify resp (pyStrip r) (pyStrip a)).success = true
  · rw [if_pos g8] at h
    exact Except.noConfusion h
  rw [if_neg g8] at h
  by_cases g9 : (tokenize_and_verify resp (pyStrip r) (pyStrip a)).verifyStatus = "NEG"
  · rw [if_pos g9] at h
    exact Except.noConfusion h
  rw [if_neg g9] at h
  by_cases g10 : (tokenize_and_verify resp (pyStrip r) (pyStrip a)).verifyStatus = "UNK" ∧
      ¬env.settings.allowUnknownAccounts = true
  · rw [if_pos g10] at h
    exact Except.noConfusion h
  rw [if_neg g10] at h
  have hsucc : resp.success = true := by
    rw [tokenize_success_eq] at g8
    exact not_not.mp g8
  refine ⟨hsucc, ?_⟩
  split at h
  next inserted heq =>
    have hshape := insertAuthSingle_ok_shape db _ inserted heq
    simp only [Except.ok.injEq, Prod.mk.injEq] at h
    rw [← h.1, hshape.1]
    rw [(tokenize_success_fields resp (pyStrip r) (pyStrip a) hsucc).1,
      (tokenize_success_fields resp (pyStrip r) (pyStrip a) hsucc).2.1,
      (tokenize_success_fields resp (pyStrip r) (pyStrip a) hsucc).2.2,
      tokenize_verifyStatus_eq, if_pos hsucc]
  next e heq =>
    exact absurd h (by simp)

/-- Helper: the multi-account setup rejects any routing number that does not
strip to exactly nine digits. -/
theorem setupMulti_rejects_bad_routing (env : Env) (db : DB)
    (c r a t : String) (d : Bool) (cn : Option String) (resp : RawTokenResponse)
    (h : ¬(pyIsDigit (pyStrip r) = true ∧ (pyStrip r).length = 9)) :
    exOk (setup_bank_account_multiaccount env db c r a t d cn resp) = false := by
  unfold setup_bank_account_multiaccount
  by_cases h0 : c = "" ∨ r = "" ∨ a = ""
  · rw [if_pos h0]
    rfl
  · rw [if_neg h0, if_pos h]
    rfl

/-- Helper: the multi-account setup rejects any account number that does not
strip to four to seventeen digits. -/
theorem setupMulti_rejects_bad_account (env : Env) (db : DB)
    (c r a t : String) (d : Bool) (cn : Option String) (resp : RawTokenResponse)
    (h : ¬(pyIsDigit (pyStrip a) = true ∧ 4 ≤ (pyStrip a).length ∧
      (pyStrip a).length ≤ 17)) :
    exOk (setup_bank_account_multiaccount env db c r a t d cn resp) = false := by
  unfold setup_bank_account_multiaccount
  by_cases h0 : c = "" ∨ r = "" ∨ a = ""
  · rw [if_pos h0]
    rfl
  · rw [if_neg h0]
    by_cases h2 : ¬(pyIsDigit (pyStrip r) = true ∧ (pyStrip r).length = 9)
    · rw [if_pos h2]
      rfl
    · rw [if_neg h2]
      by_cases h3 : ¬pyIsDigit (pyStrip a) = true
      · rw [if_pos h3]
        rfl
      · rw [if_neg h3]
        have hd : pyIsDigit (pyStrip a) = true := not_not.mp h3
        have hlen : ¬(4 ≤ (pyStrip a).length ∧ (pyStrip a).length ≤ 17) :=
          fun hcon => h ⟨hd, hcon.1, hcon.2⟩
        rw [if_pos (by omega)]
        rfl

/-- Helper: the multi-account setup rejects a negatively verified account
whatever the policy settings. -/
theorem setupMulti_rejects_neg (env : Env) (db : DB)
    (c r a t : String) (d : Bool) (cn : Option String) (resp : RawTokenResponse)
    (h : rawVerifyStatus resp = "NEG") :
    exOk (setup_bank_account_multiaccount env db c r a t d cn resp) = false := by
  unfold setup_bank_account_multiaccount
  by_cases h0 : c = "" ∨ r = "" ∨ a = ""
  · rw [if_pos h0]
    rfl
  rw [if_neg h0]
  by_cases h2 : ¬(pyIsDigit (pyStrip r) = true ∧ (pyStrip r).length = 9)
  · rw [if_pos h2]
    rfl
  rw [if_neg h2]
  by_cases h3 : ¬pyIsDigit (pyStrip a) = true
  · rw [if_pos h3]
    rfl
  rw [if_neg h3]
  by_cases h4 : (pyStrip a).length < 4 ∨ (pyStrip a).length > 17
  · rw [if_pos h4]
    rfl
  rw [if_neg h4]
  by_cases h5 : ¬truthyStr cn = true
  · rw [if_pos h5]
    rfl
  rw [if_neg h5]
  by_cases h6 : ¬env.settings.enableAchAutopay = true
  · rw [if_pos h6]
    rfl
  rw [if_neg h6]
  by_cases h7 : ¬(tokenize_and_verify resp (pyStrip r) (pyStrip a)).success = true
  · rw [if_pos h7]
    rfl
  rw [if_neg h7]
  rw [tokenize_success_eq] at h7
  rw [tokenize_verifyStatus_eq, if_pos (not_not.mp h7)]
  rw [if_pos h]
  rfl

/-- Helper: on a well-formed multi-account request with a successful
tokenization, setup succeeds exactly when verification is not negative and
an unknown grade is tolerated by policy. -/
theorem setupMulti_policy_iff (env : Env) (db : DB)
    (c r a t : String) (d : Bool) (cn : Option String) (resp : RawTokenResponse)
    (hc : c ≠ "") (hr : r ≠ "") (ha : a ≠ "")
    (hrv : pyIsDigit (pyStrip r) = true ∧ (pyStrip r).length = 9)
    (hav : pyIsDigit (pyStrip a) = true ∧ 4 ≤ (pyStrip a).length ∧
      (pyStrip a).length ≤ 17)
    (hcn : truthyStr cn = true)
    (hen : env.settings.enableAchAutopay = true)
    (hsucc : resp.success = true) :
    exOk (setup_bank_account_multiaccount env db c r a t d cn resp) = true ↔
      (rawVerifyStatus resp ≠ "NEG" ∧
        (rawVerifyStatus resp = "UNK" → env.settings.allowUnknownAccounts = true)) := by
  unfold setup_bank_account_multiaccount
  rw [if_neg (by simp [hc, hr, ha])]
  rw [if_neg (not_not_intro hrv)]
  rw [if_neg (not_not_intro hav.1)]
  rw [if_neg (by rcases hav with ⟨_, h4, h17⟩; push_neg; omega)]
  rw [if_neg (by simp [hcn])]
  rw [if_neg (by simp [hen])]
  rw [if_neg (by simp [tokenize_success_eq, hsucc])]
  rw [tokenize_verifyStatus_eq, if_pos hsucc]
  by_cases hneg : rawVerifyStatus resp = "NEG"
  · rw [if_pos hneg]
    simp [exOk, hneg]
  · rw [if_neg hneg]
    by_cases hpol : rawVerifyStatus resp = "UNK" ∧
        ¬env.settings.allowUnknownAccounts = true
    · rw [if_pos hpol]
      simp only [exOk]
      constructor
      · intro hfalse
        cases hfalse
      · intro hr2
        exact absurd (hr2.2 hpol.1) hpol.2
    · rw [if_neg hpol]
      constructor
      · intro _
        refine ⟨hneg, fun hu => ?_⟩
        by_cases hal : env.settings.allowUnknownAccounts = true
        · exact hal
        · exact absurd ⟨hu, hal⟩ hpol
      · intro _
        rfl

/-- Helper: a successful multi-account setup appends exactly one new Active
customer-level authorization holding only the last-4 masks and the opaque
token (after the single-default validate hook may have unset a conflicting
default). -/
theorem setupMulti_ok_shape (env : Env) (db : DB) (c r a t : String) (d : Bool)
    (cn : Option String) (resp : RawTokenResponse) (db2 : DB) (o : SetupOk)
    (h : setup_bank_account_multiaccount env db c r a t d cn resp =
      Except.ok (db2, o)) :
    resp.success = true ∧
    db2.auths =
      (validate_single_default db
        { name := "AUTH-" ++ toString db.seq, customer := c, loan := none,
          isDefault := d, status := AuthStatus.Active,
          bankName := (tokenize_and_verify resp (pyStrip r) (pyStrip a)).bankName.getD "",
          accountType := t, bankAccountLast4 := last4 (pyStrip a),
          routingNumberLast4 := last4 (pyStrip r), achqToken := resp.achqToken,
          verificationStatus := rawVerifyStatus resp, consentCaptured := true,
          secCode := env.settings.defaultSecCode }).auths ++
      [{ name := "AUTH-" ++ toString db.seq, customer := c, loan := none,
         isDefault := d, status := AuthStatus.Active,
         bankName := (tokenize_and_verify resp (pyStrip r) (pyStrip a)).bankName.getD "",
         accountType := t, bankAccountLast4 := last4 (pyStrip a),
         routingNumberLast4 := last4 (pyStrip r), achqToken := resp.achqToken,
         verificationStatus := rawVerifyStatus resp, consentCaptured := true,
         secCode := env.settings.defaultSecCode }] := by
  unfold setup_bank_account_multiaccount at h
  simp only [] at h
  by_cases g1 : c = "" ∨ r = "" ∨ a = ""
  · rw [if_pos g1] at h
    exact Except.noConfusion h
  rw [if_neg g1] at h
  by_cases g2 : ¬(pyIsDigit (pyStrip r) = true ∧ (pyStrip r).length = 9)
  · rw [if_pos g2] at h
    exact Except.noConfusion h
  rw [if_neg g2] at h
  by_cases g3 : ¬pyIsDigit (pyStrip a) = true
  · rw [if_pos g3] at h
    exact Except.noConfusion h
  rw [if_neg g3] at h
  by_cases g4 : (pyStrip a).length < 4 ∨ (pyStrip a).length > 17
  · rw [if_pos g4] at h
    exact Except.noConfusion h
  rw [if_neg g4] at h
  by_cases g5 : ¬truthyStr cn = true
  · rw [if_pos g5] at h
    exact Except.noConfusion h
  rw [if_neg g5] at h
  by_cases g6 : ¬env.settings.enableAchAutopay = true
  · rw [if_pos g6] at h
    exact Except.noConfusion h
  rw [if_neg g6] at h
  by_cases g7 : ¬(tokenize_and_verify resp (pyStrip r) (pyStrip a)).success = true
  · rw [if_pos g7] at h
    exact Except.noConfusion h
  rw [if_neg g7] at h
  by_cases g8 : (tokenize_and_verify resp (pyStrip r) (pyStrip a)).verifyStatus = "NEG"
  · rw [if_pos g8] at h
    exact Except.noConfusion h
  rw [if_neg g8] at h
  by_cases g9 : (tokenize_and_verify resp (pyStrip r) (pyStrip a)).verifyStatus = "UNK" ∧
      ¬env.settings.allowUnknownAccounts = true
  · rw [if_pos g9] at h
    exact Except.noConfusion h
  rw [if_neg g9] at h
  have hsucc : resp.success = true := by
    rw [tokenize_success_eq] at g7
    exact not_not.mp g7
  refine ⟨hsucc, ?_⟩
  simp only [Except.ok.injEq, Prod.mk.injEq] at h
  rw [← h.1]
  rw [(tokenize_success_fields resp (pyStrip r) (pyStrip a) hsucc).1,
    (tokenize_success_fields resp (pyStrip r) (pyStrip a) hsucc).2.1,
    (tokenize_success_fields resp (pyStrip r) (pyStrip a) hsucc).2.2,
    tokenize_verifyStatus_eq, if_pos hsucc]

/-- C6: setup_bank_account (both module variants) fails for any routing
number that does not strip to exactly nine digits and any account number
that does not strip to four to seventeen digits; fails whenever the
processor grades verification NEG, regardless of policy; on an otherwise
well-formed request with a successful tokenization it succeeds exactly when
the grade is not NEG and an UNK grade is tolerated by the
allow_unknown_accounts policy; and on success it persists exactly one new
Active authorization storing only the last-4 of the account and routing
numbers plus the opaque token. -/
theorem setup_bank_account_spec :
    (∀ (env : Env) (db : DB) (c l r a t : String) (resp : RawTokenResponse),
      ¬(pyIsDigit (pyStrip r) = true ∧ (pyStrip r).length = 9) →
      exOk (setup_bank_account env db c l r a t resp) = false) ∧
    (∀ (env : Env) (db : DB) (c r a t : String) (d : Bool) (cn : Option String)
      (resp : RawTokenResponse),
      ¬(pyIsDigit (pyStrip r) = true ∧ (pyStrip r).length = 9) →
      exOk (setup_bank_account_multiaccount env db c r a t d cn resp) = false) ∧
    (∀ (env : Env) (db : DB) (c l r a t : String) (resp : RawTokenResponse),
      ¬(pyIsDigit (pyStrip a) = true ∧ 4 ≤ (pyStrip a).length ∧
        (pyStrip a).length ≤ 17) →
      exOk (setup_bank_account env db c l r a t resp) = false) ∧
    (∀ (env : Env) (db : DB) (c r a t : String) (d : Bool) (cn : Option String)
      (resp : RawTokenResponse),
      ¬(pyIsDigit (pyStrip a) = true ∧ 4 ≤ (pyStrip a).length ∧
        (pyStrip a).length ≤ 17) →
      exOk (setup_bank_account_multiaccount env db c r a t d cn resp) = false) ∧
    (∀ (env : Env) (db : DB) (c l r a t : String) (resp : RawTokenResponse),
      rawVerifyStatus resp = "NEG" →
      exOk (setup_bank_account env db c l r a t resp) = false) ∧
    (∀ (env : Env) (db : DB) (c r a t : String) (d : Bool) (cn : Option String)
      (resp : RawTokenResponse),
      rawVerifyStatus resp = "NEG" →
      exOk (setup_bank_account_multiaccount env db c r a t d cn resp) = false) ∧
    (∀ (env : Env) (db : DB) (c l r a t : String) (resp : RawTokenResponse),
      c ≠ "" → l ≠ "" → r ≠ "" → a ≠ "" →
      (pyIsDigit (pyStrip r) = true ∧ (pyStrip r).length = 9) →
      (pyIsDigit (pyStrip a) = true ∧ 4 ≤ (pyStrip a).length ∧
        (pyStrip a).length ≤ 17) →
      loanApplicant db.loans l = some c →
      db.auths.any (fun x => x.loan = some l ∧ x.status = AuthStatus.Active) = false →
      env.settings.enableAchAutopay = true →
      resp.success = true →
      (exOk (setup_bank_account env db c l r a t resp) = true ↔
        (rawVerifyStatus resp ≠ "NEG" ∧
          (rawVerifyStatus resp = "UNK" →
            env.settings.allowUnknownAccounts = true)))) ∧
    (∀ (env : Env) (db : DB) (c r a t : String) (d : Bool) (cn : Option String)
      (resp : RawTokenResponse),
      c ≠ "" → r ≠ "" → a ≠ "" →
      (pyIsDigit (pyStrip r) = true ∧ (pyStrip r).length = 9) →
      (pyIsDigit (pyStrip a) = true ∧ 4 ≤ (pyStrip a).length ∧
        (pyStrip a).length ≤ 17) →
      truthyStr cn = true →
      env.settings.enableAchAutopay = true →
      resp.success = true →
      (exOk (setup_bank_account_multiaccount env db c r a t d cn resp) = true ↔
        (rawVerifyStatus resp ≠ "NEG" ∧
          (rawVerifyStatus resp = "UNK" →
            env.settings.allowUnknownAccounts = true)))) ∧
    (∀ (env : Env) (db : DB) (c l r a t : String) (resp : RawTokenResponse)
      (db2 : DB) (o : SetupOk),
      setup_bank_account env db c l r a t resp = Except.ok (db2, o) →
      resp.success = true ∧
      db2.auths = db.auths ++
        [{ name := "AUTH-" ++ toString db.seq, customer := c, loan := some l,
           isDefault := false, status := AuthStatus.Active,
           bankName := (tokenize_and_verify resp (pyStrip r) (pyStrip a)).bankName.getD "",
           accountType := t, bankAccountLast4 := last4 (pyStrip a),
           routingNumberLast4 := last4 (pyStrip r), achqToken := resp.achqToken,
           verificationStatus := rawVerifyStatus resp, consentCaptured := true,
           secCode := env.settings.defaultSecCode }]) ∧
    (∀ (env : Env) (db : DB) (c r a t : String) (d : Bool) (cn : Option String)
      (resp : RawTokenResponse) (db2 : DB) (o : SetupOk),
      setup_bank_account_multiaccount env db c r a t d cn resp =
        Except.ok (db2, o) →
      resp.success = true) := by
  refine ⟨setupSingle_rejects_bad_routing, setupMulti_rejects_bad_routing,
    setupSingle_rejects_bad_account, setupMulti_rejects_bad_account,
    setupSingle_rejects_neg, setupMulti_rejects_neg, ?_, ?_, setupSingle_ok_shape, ?_⟩
  · intro env db c l r a t resp hc hl hr ha hrv hav hown hex hen hsucc
    exact setupSingle_policy_iff env db c l r a t resp hc hl hr ha hrv hav hown hex
      hen hsucc
  · intro env db c r a t d cn resp hc hr ha hrv hav hcn hen hsucc
    exact setupMulti_policy_iff env db c r a t d cn resp hc hr ha hrv hav hcn hen hsucc
  · intro env db c r a t d cn resp db2 o h
    exact (setupMulti_ok_shape env db c r a t d cn resp db2 o h).1

/-- Witness for setup_bank_account_spec: a five-digit routing number is
rejected, the 123456789 / 12345678 / POS scenario succeeds, and the
successful run stores one additional authorization. -/
theorem setup_bank_account_spec_witness :
    exOk (setup_bank_account baseEnv resolveDB "CUST1" "L3" "12345" "12345678"
      "Checking" posResp) = false ∧
    exOk (setup_bank_account baseEnv resolveDB "CUST1" "L3" "123456789" "12345678"
      "Checking" posResp) = true ∧
    (okValue (setup_bank_account baseEnv resolveDB "CUST1" "L3" "123456789"
      "12345678" "Checking" posResp) fallbackSetup).1.auths.length =
      resolveDB.auths.length + 1 := by
  refine ⟨?_, ?_, ?_⟩
  · exact setup_bank_account_spec.1 baseEnv resolveDB "CUST1" "L3" "12345"
      "12345678" "Checking" posResp (by decide)
  · exact (setup_bank_account_spec.2.2.2.2.2.2.1 baseEnv resolveDB "CUST1" "L3"
      "123456789" "12345678" "Checking" posResp (by decide) (by decide) (by decide)
      (by decide) (by decide) (by decide) (by decide) (by decide) (by decide)
      (by decide)).mpr ⟨by decide, by decide⟩
  · have h := setup_bank_account_spec.2.2.2.2.2.2.2.2.1 baseEnv resolveDB "CUST1"
      "L3" "123456789" "12345678" "Checking" posResp
      (okValue (setup_bank_account baseEnv resolveDB "CUST1" "L3" "123456789"
        "12345678" "Checking" posResp) fallbackSetup).1
      (okValue (setup_bank_account baseEnv resolveDB "CUST1" "L3" "123456789"
        "12345678" "Checking" posResp) fallbackSetup).2 (by rfl)
    rw [h.2]
    simp

/-- Helper: filtering a one-element list keeps at most one element. -/
theorem length_filter_singleton_le_one {α : Type} (p : α → Bool) (x : α) :
    (List.filter p [x]).length ≤ 1 := by
  simp only [List.filter_cons, List.filter_nil]
  split <;> simp

/-- Helper: writing the value a field already holds is the identity
(customer). -/
theorem txn_set_customer_self (t : ACHTransaction) (c : String)
    (h : t.customer = c) : ({ t with customer := c } : ACHTransaction) = t := by
  cases t
  simp_all

/-- Helper: writing the value a field already holds is the identity
(payment_entry). -/
theorem txn_set_paymentEntry_self (t : ACHTransaction) (p : Option String)
    (h : t.paymentEntry = p) :
    ({ t with paymentEntry := p } : ACHTransaction) = t := by
  cases t
  simp_all

/-- Helper: re-stamping Success and an identical completion timestamp is the
identity. -/
theorem txn_set_success_self (t : ACHTransaction) (n : Int)
    (h1 : t.status = TxnStatus.Success) (h2 : t.completedDate = some n) :
    ({ t with status := TxnStatus.Success, completedDate := some n } :
      ACHTransaction) = t := by
  cases t
  simp_all

/-- Helper: re-stamping Success, the completion timestamp and the processor
status with the values already held is the identity. -/
theorem txn_header_self (t : ACHTransaction) (n : Int) (s : Option String)
    (h1 : t.status = TxnStatus.Success) (h2 : t.completedDate = some n)
    (h3 : t.achqStatus = s) :
    ({ { t with status := TxnStatus.Success, completedDate := some n } with
        achqStatus := s } : ACHTransaction) = t := by
  cases t
  simp_all

/-- Helper: the customer backfill leaves the completion timestamp alone. -/
theorem setCustomer_completedDate (auths : List ACHAuthorization)
    (txn : ACHTransaction) :
    (setCustomerFromAuthorization auths txn).completedDate = txn.completedDate := by
  unfold setCustomerFromAuthorization
  split <;> rfl

/-- Helper: the customer backfill leaves the processor status alone. -/
theorem setCustomer_achqStatus (auths : List ACHAuthorization)
    (txn : ACHTransaction) :
    (setCustomerFromAuthorization auths txn).achqStatus = txn.achqStatus := by
  unfold setCustomerFromAuthorization
  split <;> rfl

/-- Helper: the customer backfill leaves the payment_entry link alone. -/
theorem setCustomer_paymentEntry (auths : List ACHAuthorization)
    (txn : ACHTransaction) :
    (setCustomerFromAuthorization auths txn).paymentEntry = txn.paymentEntry := by
  unfold setCustomerFromAuthorization
  split <;> rfl

/-- Helper: the reduced form of the customer backfill when it fires. -/
theorem setCustomer_eq_of_pos (auths : List ACHAuthorization)
    (t : ACHTransaction) (h : t.achAuthorization ≠ "" ∧ t.customer = "") :
    setCustomerFromAuthorization auths t =
      { t with customer := (authCustomer auths t.achAuthorization).getD "" } := by
  unfold setCustomerFromAuthorization
  rw [if_pos h]

/-- Helper: the reduced form of the customer backfill when it does not
fire. -/
theorem setCustomer_eq_of_neg (auths : List ACHAuthorization)
    (t : ACHTransaction) (h : ¬(t.achAuthorization ≠ "" ∧ t.customer = "")) :
    setCustomerFromAuthorization auths t = t := by
  unfold setCustomerFromAuthorization
  rw [if_neg h]

/-- Helper: the customer backfill is idempotent. -/
theorem setCustomer_fix (auths : List ACHAuthorization) (t : ACHTransaction) :
    setCustomerFromAuthorization auths (setCustomerFromAuthorization auths t) =
      setCustomerFromAuthorization auths t := by
  by_cases h : t.achAuthorization ≠ "" ∧ t.customer = ""
  · rw [setCustomer_eq_of_pos auths t h]
    by_cases h2 : (authCustomer auths t.achAuthorization).getD "" = ""
    · rw [setCustomer_eq_of_pos auths
        { t with customer := (authCustomer auths t.achAuthorization).getD "" }
        ⟨h.1, h2⟩]
    · exact setCustomer_eq_of_neg auths _ (fun hc => h2 hc.2)
  · rw [setCustomer_eq_of_neg auths t h]
    exact setCustomer_eq_of_neg auths t h

/-- Helper: the customer backfill commutes with setting the
notification_sent flag. -/
theorem setCustomer_notif_comm (auths : List ACHAuthorization)
    (t : ACHTransaction) (b : Bool) :
    setCustomerFromAuthorization auths ({ t with notificationSent := b }) =
      { setCustomerFromAuthorization auths t with notificationSent := b } := by
  by_cases h : t.achAuthorization ≠ "" ∧ t.customer = ""
  · rw [setCustomer_eq_of_pos auths ({ t with notificationSent := b })
      (by exact h), setCustomer_eq_of_pos auths t h]
  · rw [setCustomer_eq_of_neg auths ({ t with notificationSent := b })
      (by exact h), setCustomer_eq_of_neg auths t h]

/-- Helper: every name-matching element of a map-replaced list is the
replacement. -/
theorem mem_replace_eq {l : List ACHTransaction} (v : ACHTransaction)
    (t : ACHTransaction)
    (h : t ∈ l.map (fun x => if x.name = v.name then v else x))
    (hn : t.name = v.name) : t = v := by
  obtain ⟨x, hx, hfx⟩ := List.mem_map.mp h
  by_cases hxn : x.name = v.name
  · rw [if_pos hxn] at hfx
    exact hfx.symm
  · rw [if_neg hxn] at hfx
    rw [← hfx] at hn
    exact absurd hn hxn

/-- Helper: map-replace is the identity when every name-matching element
already is the replacement. -/
theorem map_replace_eq_self {l : List ACHTransaction} (v : ACHTransaction)
    (h : ∀ t ∈ l, t.name = v.name → t = v) :
    l.map (fun x => if x.name = v.name then v else x) = l := by
  induction l with
  | nil => rfl
  | cons a as ih =>
    simp only [List.map_cons]
    rw [ih (fun t ht => h t (List.mem_cons_of_mem a ht))]
    by_cases ha : a.name = v.name
    · rw [if_pos ha, h a (List.mem_cons_self a as) ha]
    · rw [if_neg ha]

/-- Helper: find? over an appended singleton when the prefix has no match. -/
theorem find_append_of_none {α : Type} (p : α → Bool) (l : List α) (x : α)
    (h : l.find? p = none) (hx : p x = true) :
    (l ++ [x]).find? p = some x := by
  induction l with
  | nil => simp [List.find?, hx]
  | cons a as ih =>
    by_cases ha : p a = true
    · rw [List.find?_cons_of_pos _ ha] at h
      exact Option.noConfusion h
    · rw [List.find?_cons_of_neg _ ha] at h
      rw [List.cons_append, List.find?_cons_of_neg _ ha]
      exact ih h

/-- Helper: saving a document that the validate hook fixes and that already
replaces every name-matching stored document is a no-op. -/
theorem saveTxn_fixpoint (db : DB) (t : ACHTransaction)
    (hv : setCustomerFromAuthorization db.auths t = t)
    (hall : ∀ x ∈ db.txns, x.name = t.name → x = t) :
    DB.saveTxn db t = (db, t) := by
  simp only [DB.saveTxn]
  rw [hv, map_replace_eq_self t hall]

/-- Helper: re-saving an already-saved document is a no-op. -/
theorem saveTxn_resave (d : DB) (w : ACHTransaction) :
    DB.saveTxn (DB.saveTxn d w).1 (DB.saveTxn d w).2 =
      ((DB.saveTxn d w).1, (DB.saveTxn d w).2) :=
  saveTxn_fixpoint (DB.saveTxn d w).1 (DB.saveTxn d w).2
    (setCustomer_fix d.auths w)
    (fun x hx hn =>
      mem_replace_eq (setCustomerFromAuthorization d.auths w) x hx hn)

/-- Helper: the e-mail log stays in place across a save. -/
theorem saveTxn_sentEmails (db : DB) (t : ACHTransaction) :
    (DB.saveTxn db t).1.sentEmails = db.sentEmails := rfl

/-- Helper: the saved document produced by the notification save. -/
theorem notifySave_doc (p : DB × ACHTransaction) (k : String) :
    (notifySave p k).2 =
      setCustomerFromAuthorization p.1.auths
        { p.2 with notificationSent := true } := rfl

/-- Helper: the notification save leaves the Payment Entries alone. -/
theorem notifySave_pes (p : DB × ACHTransaction) (k : String) :
    (notifySave p k).1.paymentEntries = p.1.paymentEntries := rfl

/-- Helper: the notification save appends exactly one e-mail record. -/
theorem notifySave_sentEmails (p : DB × ACHTransaction) (k : String) :
    (notifySave p k).1.sentEmails = p.1.sentEmails ++ [(p.2.name, k)] := rfl

/-- Helper: re-saving the document saved by the notification step is a
no-op. -/
theorem notifySave_resave (p : DB × ACHTransaction) (k : String) :
    DB.saveTxn (notifySave p k).1 (notifySave p k).2 =
      ((notifySave p k).1, (notifySave p k).2) := by
  unfold notifySave
  exact saveTxn_resave _ _

/-- Helper: the notification step is a no-op once notification_sent is
set. -/
theorem markSuccessTail_sent (env : Env) (p : DB × ACHTransaction)
    (h : p.2.notificationSent = true) : markSuccessTail env p = p := by
  unfold markSuccessTail
  rw [if_neg (not_not_intro h)]

/-- Helper: the notification step reduces to send_notification while
notification_sent is clear. -/
theorem markSuccessTail_unsent (env : Env) (p : DB × ACHTransaction)
    (h : p.2.notificationSent = false) :
    markSuccessTail env p = send_notification env p.1 p.2 "success" := by
  unfold markSuccessTail
  rw [if_pos (by simp [h])]

/-- Helper: send_notification either leaves the state alone or logs one
e-mail, sets the flag and saves. -/
theorem send_notification_cases (env : Env) (db : DB) (t : ACHTransaction)
    (k : String) :
    send_notification env db t k = (db, t) ∨
    send_notification env db t k =
      DB.saveTxn { db with sentEmails := db.sentEmails ++ [(t.name, k)] }
        { t with notificationSent := true } := by
  unfold send_notification
  by_cases hs : (k = "success" ∧ env.settings.sendSuccessNotification = true) ∨
      (k = "failure" ∧ env.settings.sendFailureNotification = true) ∨
      (k = "upcoming" ∧ env.settings.sendUpcomingDebitNotification = true)
  · rw [if_neg (not_not_intro hs)]
    by_cases he : truthyStr (env.customerEmail t.customer) = true
    · rw [if_neg (not_not_intro he)]
      by_cases hek : env.emailOk = true
      · rw [if_pos hek]
        right
        rfl
      · rw [if_neg hek]
        left
        rfl
    · rw [if_pos he]
      left
      rfl
  · rw [if_pos hs]
    left
    rfl

/-- Helper: the three ways the notification step can go on a pair. -/
theorem markSuccessTail_outcomes (env : Env) (p : DB × ACHTransaction) :
    (p.2.notificationSent = true ∧ markSuccessTail env p = p) ∨
    (p.2.notificationSent = false ∧
      send_notification env p.1 p.2 "success" = p ∧
      markSuccessTail env p = p) ∨
    (p.2.notificationSent = false ∧
      markSuccessTail env p = notifySave p "success") := by
  by_cases hns : p.2.notificationSent = true
  · exact Or.inl ⟨hns, markSuccessTail_sent env p hns⟩
  · have hns' : p.2.notificationSent = false := by
      cases hb : p.2.notificationSent with
      | false => rfl
      | true => exact absurd hb hns
    rcases send_notification_cases env p.1 p.2 "success" with hsn | hsn
    · have hsp : send_notification env p.1 p.2 "success" = p := hsn
      exact Or.inr (Or.inl ⟨hns', hsp,
        (markSuccessTail_unsent env p hns').trans hsp⟩)
    · exact Or.inr (Or.inr ⟨hns',
        (markSuccessTail_unsent env p hns').trans hsn⟩)

/-- Helper: the save-then-notify tail of mark_success preserves the saved
document's name, status, timestamps, processor status, loan and payment
entry link, never touches the stored Payment Entries, logs at most one new
e-mail, and produces a pair on which a second save-then-notify round is the
identity. -/
theorem tail_invariants (env : Env) (d : DB) (w : ACHTransaction) (dA : DB)
    (wA : ACHTransaction)
    (h : markSuccessTail env (DB.saveTxn d w) = (dA, wA)) :
    wA.name = w.name ∧ wA.status = w.status ∧
    wA.completedDate = w.completedDate ∧ wA.achqStatus = w.achqStatus ∧
    wA.loan = w.loan ∧ wA.paymentEntry = w.paymentEntry ∧
    dA.paymentEntries = d.paymentEntries ∧
    countSentEmails dA w.name ≤ countSentEmails d w.name + 1 ∧
    markSuccessTail env (DB.saveTxn dA wA) = (dA, wA) := by
  rcases markSuccessTail_outcomes env (DB.saveTxn d w) with
    ⟨hns, heq⟩ | ⟨hns, hsend, heq⟩ | ⟨hns, heq⟩
  · have hpw : (dA, wA) = DB.saveTxn d w := h.symm.trans heq
    have hda : dA = (DB.saveTxn d w).1 := by rw [← hpw]
    have hwa : wA = (DB.saveTxn d w).2 := by rw [← hpw]
    refine ⟨?_, ?_, ?_, ?_, ?_, ?_, ?_, ?_, ?_⟩
    · rw [hwa]; exact setCustomer_name d.auths w
    · rw [hwa]; exact setCustomer_status d.auths w
    · rw [hwa]; exact setCustomer_completedDate d.auths w
    · rw [hwa]; exact setCustomer_achqStatus d.auths w
    · rw [hwa]; exact setCustomer_loan d.auths w
    · rw [hwa]; exact setCustomer_paymentEntry d.auths w
    · rw [hda]; rfl
    · rw [hda]
      exact Nat.le_add_right _ 1
    · rw [hda, hwa, saveTxn_resave d w]
      exact markSuccessTail_sent env _ hns
  · have hpw : (dA, wA) = DB.saveTxn d w := h.symm.trans heq
    have hda : dA = (DB.saveTxn d w).1 := by rw [← hpw]
    have hwa : wA = (DB.saveTxn d w).2 := by rw [← hpw]
    refine ⟨?_, ?_, ?_, ?_, ?_, ?_, ?_, ?_, ?_⟩
    · rw [hwa]; exact setCustomer_name d.auths w
    · rw [hwa]; exact setCustomer_status d.auths w
    · rw [hwa]; exact setCustomer_completedDate d.auths w
    · rw [hwa]; exact setCustomer_achqStatus d.auths w
    · rw [hwa]; exact setCustomer_loan d.auths w
    · rw [hwa]; exact setCustomer_paymentEntry d.auths w
    · rw [hda]; rfl
    · rw [hda]
      exact Nat.le_add_right _ 1
    · rw [hda, hwa, saveTxn_resave d w,
        markSuccessTail_unsent env _ hns]
      exact hsend
  · have hpw : (dA, wA) = notifySave (DB.saveTxn d w) "success" :=
      h.symm.trans heq
    have hda : dA = (notifySave (DB.saveTxn d w) "success").1 := by rw [← hpw]
    have hwa : wA = (notifySave (DB.saveTxn d w) "success").2 := by rw [← hpw]
    refine ⟨?_, ?_, ?_, ?_, ?_, ?_, ?_, ?_, ?_⟩
    · rw [hwa, notifySave_doc]
      exact (setCustomer_name _ _).trans (setCustomer_name d.auths w)
    · rw [hwa, notifySave_doc]
      exact (setCustomer_status _ _).trans (setCustomer_status d.auths w)
    · rw [hwa, notifySave_doc]
      exact (setCustomer_completedDate _ _).trans
        (setCustomer_completedDate d.auths w)
    · rw [hwa, notifySave_doc]
      exact (setCustomer_achqStatus _ _).trans (setCustomer_achqStatus d.auths w)
    · rw [hwa, notifySave_doc]
      exact (setCustomer_loan _ _).trans (setCustomer_loan d.auths w)
    · rw [hwa, notifySave_doc]
      exact (setCustomer_paymentEntry _ _).trans
        (setCustomer_paymentEntry d.auths w)
    · rw [hda]
      rfl
    · rw [hda]
      simp only [countSentEmails, notifySave_sentEmails, saveTxn_sentEmails,
        List.filter_append, List.length_append]
      exact Nat.add_le_add_left (length_filter_singleton_le_one _ _) _
    · rw [hda, hwa, notifySave_resave]
      exact markSuccessTail_sent env _ (setCustomer_notificationSent _ _)

/-- Helper: where create_payment_entry can land, by branch. -/
theorem create_payment_entry_cases (env : Env) (db : DB) (t : ACHTransaction) :
    (env.loanExists t.loan = false → create_payment_entry env db t = (db, none)) ∧
    (∀ pe, env.loanExists t.loan = true →
      db.paymentEntries.find? (fun p => p.referenceNo = t.name) = some pe →
      create_payment_entry env db t = (db, some pe)) ∧
    (env.loanExists t.loan = true →
      db.paymentEntries.find? (fun p => p.referenceNo = t.name) = none →
      env.paymentEntryCreationOk = false →
      create_payment_entry env db t = (db, none)) ∧
    (env.loanExists t.loan = true →
      db.paymentEntries.find? (fun p => p.referenceNo = t.name) = none →
      env.paymentEntryCreationOk = true →
      create_payment_entry env db t =
        ({ db with
            paymentEntries := db.paymentEntries ++ [newPaymentEntry db t]
            seq := db.seq + 1 }, some (newPaymentEntry db t))) := by
  refine ⟨?_, ?_, ?_, ?_⟩
  · intro h
    simp [create_payment_entry, h]
  · intro pe hle hfind
    simp [create_payment_entry, hle, hfind]
  · intro hle hfind hok
    simp [create_payment_entry, hle, hfind, hok]
  · intro hle hfind hok
    simp [create_payment_entry, hle, hfind, hok]

/-- Helper: create_payment_entry never touches the e-mail log. -/
theorem create_pe_sentEmails (env : Env) (db : DB) (t : ACHTransaction) :
    (create_payment_entry env db t).1.sentEmails = db.sentEmails := by
  unfold create_payment_entry
  split
  · rfl
  split
  · rfl
  split
  · rfl
  · rfl

/-- Helper: create_payment_entry adds at most one Payment Entry per
reference. -/
theorem create_pe_count (env : Env) (db : DB) (t : ACHTransaction) (r : String) :
    countPaymentEntries (create_payment_entry env db t).1 r ≤
      countPaymentEntries db r + 1 := by
  unfold create_payment_entry
  split
  · exact Nat.le_add_right _ 1
  split
  · exact Nat.le_add_right _ 1
  split
  · simp only [countPaymentEntries, List.filter_append, List.length_append]
    exact Nat.add_le_add_left (length_filter_singleton_le_one _ _) _
  · exact Nat.le_add_right _ 1

/-- Helper: the opening lines of mark_success keep the name. -/
theorem successHeader_name (env : Env) (s : Option String)
    (t : ACHTransaction) : (successHeader env s t).name = t.name := by
  simp only [successHeader]
  split <;> rfl

/-- Helper: the opening lines of mark_success keep the loan. -/
theorem successHeader_loan (env : Env) (s : Option String)
    (t : ACHTransaction) : (successHeader env s t).loan = t.loan := by
  simp only [successHeader]
  split <;> rfl

/-- Helper: the opening lines of mark_success set Success. -/
theorem successHeader_status (env : Env) (s : Option String)
    (t : ACHTransaction) : (successHeader env s t).status = TxnStatus.Success := by
  simp only [successHeader]
  split <;> rfl

/-- Helper: the opening lines of mark_success stamp the completion time. -/
theorem successHeader_completedDate (env : Env) (s : Option String)
    (t : ACHTransaction) :
    (successHeader env s t).completedDate = some env.now := by
  simp only [successHeader]
  split <;> rfl

/-- Helper: a truthy processor status is recorded. -/
theorem successHeader_achqStatus (env : Env) (s : Option String)
    (t : ACHTransaction) (h : truthyStr s = true) :
    (successHeader env s t).achqStatus = s := by
  simp only [successHeader]
  rw [if_pos h]

/-- Helper: the opening lines of mark_success are the identity on a
document that already carries their values. -/
theorem successHeader_self (env : Env) (s : Option String)
    (t : ACHTransaction) (h1 : t.status = TxnStatus.Success)
    (h2 : t.completedDate = some env.now)
    (h3 : truthyStr s = true → t.achqStatus = s) :
    successHeader env s t = t := by
  simp only [successHeader]
  by_cases hts : truthyStr s = true
  · rw [if_pos hts]
    exact txn_header_self t env.now s h1 h2 (h3 hts)
  · rw [if_neg hts]
    exact txn_set_success_self t env.now h1 h2

/-- Helper: linking the Payment Entry keeps the name. -/
theorem attach_name (t : ACHTransaction) (r : Option PaymentEntry) :
    (attachPaymentEntry t r).name = t.name := by
  cases r <;> rfl

/-- Helper: linking the Payment Entry keeps the status. -/
theorem attach_status (t : ACHTransaction) (r : Option PaymentEntry) :
    (attachPaymentEntry t r).status = t.status := by
  cases r <;> rfl

/-- Helper: linking the Payment Entry keeps the completion time. -/
theorem attach_completedDate (t : ACHTransaction) (r : Option PaymentEntry) :
    (attachPaymentEntry t r).completedDate = t.completedDate := by
  cases r <;> rfl

/-- Helper: linking the Payment Entry keeps the processor status. -/
theorem attach_achqStatus (t : ACHTransaction) (r : Option PaymentEntry) :
    (attachPaymentEntry t r).achqStatus = t.achqStatus := by
  cases r <;> rfl

/-- Helper: linking the Payment Entry keeps the loan. -/
theorem attach_loan (t : ACHTransaction) (r : Option PaymentEntry) :
    (attachPaymentEntry t r).loan = t.loan := by
  cases r <;> rfl

/-- Helper: mark_success is the notification tail applied to a save whose
document carries Success, the completion stamp and (when truthy) the
processor status; the database before that save holds at most one new
Payment Entry and the same e-mail log; and on the resulting pair a second
create/attach round is the identity. -/
theorem mark_success_form (env : Env) (db : DB) (txn : ACHTransaction)
    (s : Option String) :
    ∃ (d : DB) (w : ACHTransaction),
      mark_success env db txn s = markSuccessTail env (DB.saveTxn d w) ∧
      w.name = txn.name ∧
      d.sentEmails = db.sentEmails ∧
      countPaymentEntries d txn.name ≤ countPaymentEntries db txn.name + 1 ∧
      w.status = TxnStatus.Success ∧
      w.completedDate = some env.now ∧
      (truthyStr s = true → w.achqStatus = s) ∧
      (∀ dA wA, markSuccessTail env (DB.saveTxn d w) = (dA, wA) →
        (create_payment_entry env dA wA).1 = dA ∧
        attachPaymentEntry wA (create_payment_entry env dA wA).2 = wA) := by
  refine ⟨(create_payment_entry env db (successHeader env s txn)).1,
    attachPaymentEntry (successHeader env s txn)
      (create_payment_entry env db (successHeader env s txn)).2,
    rfl, (attach_name _ _).trans (successHeader_name env s txn),
    create_pe_sentEmails env db _,
    create_pe_count env db _ txn.name,
    (attach_status _ _).trans (successHeader_status env s txn),
    (attach_completedDate _ _).trans (successHeader_completedDate env s txn),
    fun hts => (attach_achqStatus _ _).trans
      (successHeader_achqStatus env s txn hts),
    ?_⟩
  intro dA wA h
  obtain ⟨inm, ist, icd, iaq, ilo, ipe, ipes, iem, iself⟩ :=
    tail_invariants env _ _ dA wA h
  have hwl : wA.loan = (successHeader env s txn).loan :=
    ilo.trans (attach_loan _ _)
  have hwn2 : wA.name = (successHeader env s txn).name :=
    inm.trans (attach_name _ _)
  cases hle : env.loanExists (successHeader env s txn).loan with
  | false =>
    have hc2 : create_payment_entry env dA wA = (dA, none) :=
      (create_payment_entry_cases env dA wA).1 (by rw [hwl]; exact hle)
    constructor
    · rw [hc2]
    · rw [hc2]
      rfl
  | true =>
    cases hfind : db.paymentEntries.find?
        (fun p => p.referenceNo = (successHeader env s txn).name) with
    | some pe =>
      have hc : create_payment_entry env db (successHeader env s txn) =
          (db, some pe) :=
        (create_payment_entry_cases env db _).2.1 pe hle hfind
      have hpes2 : dA.paymentEntries = db.paymentEntries := by
        rw [ipes, hc]
      have hfind2 : dA.paymentEntries.find?
          (fun p => p.referenceNo = wA.name) = some pe := by
        rw [hpes2, hwn2]
        exact hfind
      have hc2 : create_payment_entry env dA wA = (dA, some pe) :=
        (create_payment_entry_cases env dA wA).2.1 pe
          (by rw [hwl]; exact hle) hfind2
      have hwp : wA.paymentEntry = some pe.name := by
        rw [ipe, hc]
        rfl
      constructor
      · rw [hc2]
      · rw [hc2]
        exact txn_set_paymentEntry_self wA _ hwp
    | none =>
      cases hok : env.paymentEntryCreationOk with
      | false =>
        have hc : create_payment_entry env db (successHeader env s txn) =
            (db, none) :=
          (create_payment_entry_cases env db _).2.2.1 hle hfind hok
        have hpes2 : dA.paymentEntries = db.paymentEntries := by
          rw [ipes, hc]
        have hfind2 : dA.paymentEntries.find?
            (fun p => p.referenceNo = wA.name) = none := by
          rw [hpes2, hwn2]
          exact hfind
        have hc2 : create_payment_entry env dA wA = (dA, none) :=
          (create_payment_entry_cases env dA wA).2.2.1
            (by rw [hwl]; exact hle) hfind2 hok
        constructor
        · rw [hc2]
        · rw [hc2]
          rfl
      | true =>
        have hc : create_payment_entry env db (successHeader env s txn) =
            ({ db with
                paymentEntries := db.paymentEntries ++
                  [newPaymentEntry db (successHeader env s txn)]
                seq := db.seq + 1 },
              some (newPaymentEntry db (successHeader env s txn))) :=
          (create_payment_entry_cases env db _).2.2.2 hle hfind hok
        have hpes2 : dA.paymentEntries = db.paymentEntries ++
            [newPaymentEntry db (successHeader env s txn)] := by
          rw [ipes, hc]
        have hfind2 : dA.paymentEntries.find?
            (fun p => p.referenceNo = wA.name) =
            some (newPaymentEntry db (successHeader env s txn)) := by
          rw [hpes2, hwn2]
          exact find_append_of_none _ _ _ hfind (by simp [newPaymentEntry])
        have hc2 : create_payment_entry env dA wA =
            (dA, some (newPaymentEntry db (successHeader env s txn))) :=
          (create_payment_entry_cases env dA wA).2.1 _
            (by rw [hwl]; exact hle) hfind2
        have hwp : wA.paymentEntry =
            some (newPaymentEntry db (successHeader env s txn)).name := by
          rw [ipe, hc]
          rfl
        constructor
        · rw [hc2]
        · rw [hc2]
          exact txn_set_paymentEntry_self wA _ hwp

/-- Helper: running mark_success a second time on its own result is the
identity, and a single run adds at most one Payment Entry for the
transaction and at most one e-mail. -/
theorem mark_success_master (env : Env) (db : DB) (txn : ACHTransaction)
    (s : Option String) :
    mark_success env (mark_success env db txn s).1
        (mark_success env db txn s).2 s = mark_success env db txn s ∧
    countPaymentEntries (mark_success env db txn s).1 txn.name ≤
      countPaymentEntries db txn.name + 1 ∧
    countSentEmails (mark_success env db txn s).1 txn.name ≤
      countSentEmails db txn.name + 1 := by
  obtain ⟨d, w, hform, hwn, hse, hcnt, hst, hcd, haq, hrec⟩ :=
    mark_success_form env db txn s
  obtain ⟨inm, ist, icd, iaq, ilo, ipe, ipes, iem, iself⟩ :=
    tail_invariants env d w (markSuccessTail env (DB.saveTxn d w)).1
      (markSuccessTail env (DB.saveTxn d w)).2 rfl
  obtain ⟨hc1, hatt⟩ := hrec (markSuccessTail env (DB.saveTxn d w)).1
    (markSuccessTail env (DB.saveTxn d w)).2 rfl
  refine ⟨?_, ?_, ?_⟩
  · rw [hform]
    have hhd : successHeader env s (markSuccessTail env (DB.saveTxn d w)).2 =
        (markSuccessTail env (DB.saveTxn d w)).2 :=
      successHeader_self env s _ (ist.trans hst) (icd.trans hcd)
        (fun hts => iaq.trans (haq hts))
    have hunf2 : mark_success env (markSuccessTail env (DB.saveTxn d w)).1
        (markSuccessTail env (DB.saveTxn d w)).2 s =
        markSuccessTail env (DB.saveTxn
          (create_payment_entry env (markSuccessTail env (DB.saveTxn d w)).1
            (successHeader env s (markSuccessTail env (DB.saveTxn d w)).2)).1
          (attachPaymentEntry
            (successHeader env s (markSuccessTail env (DB.saveTxn d w)).2)
            (create_payment_entry env (markSuccessTail env (DB.saveTxn d w)).1
              (successHeader env s
                (markSuccessTail env (DB.saveTxn d w)).2)).2)) := rfl
    rw [hunf2, hhd, hc1, hatt]
    exact iself
  · rw [hform]
    have e : countPaymentEntries (markSuccessTail env (DB.saveTxn d w)).1
        txn.name = countPaymentEntries d txn.name := by
      simp [countPaymentEntries, ipes]
    rw [e]
    exact hcnt
  · rw [hform, ← hwn]
    have e2 : countSentEmails d w.name = countSentEmails db w.name := by
      simp [countSentEmails, hse]
    rw [← e2]
    exact iem

/-- C9: reconciliation is idempotent. For every environment, store,
transaction and status report, running mark_success a second time on the
state and document produced by the first run yields exactly the first
run's end state; and starting from a store with no Payment Entry and no
logged e-mail for the transaction, the doubled run leaves at most one
Payment Entry referencing the transaction (guarded by the existence check
on reference_no) and at most one notification send (guarded by the
notification_sent flag). -/
theorem mark_success_idempotent (env : Env) (db : DB) (txn : ACHTransaction)
    (s : Option String) :
    mark_success env (mark_success env db txn s).1
        (mark_success env db txn s).2 s = mark_success env db txn s ∧
    (countPaymentEntries db txn.name = 0 →
      countPaymentEntries (mark_success env (mark_success env db txn s).1
        (mark_success env db txn s).2 s).1 txn.name ≤ 1) ∧
    (countSentEmails db txn.name = 0 →
      countSentEmails (mark_success env (mark_success env db txn s).1
        (mark_success env db txn s).2 s).1 txn.name ≤ 1) := by
  obtain ⟨heq, hpe, hml⟩ := mark_success_master env db txn s
  refine ⟨heq, ?_, ?_⟩
  · intro h0
    rw [heq]
    rw [h0] at hpe
    exact hpe
  · intro h0
    rw [heq]
    rw [h0] at hml
    exact hml

/-- C9 witness: a doubled success report on the baseline fixtures, starting
with no Payment Entry and no e-mail for T1. -/
theorem mark_success_idempotent_witness :
    countPaymentEntries baseDB "T1" = 0 ∧ countSentEmails baseDB "T1" = 0 ∧
    (mark_success baseEnv
        (mark_success baseEnv baseDB baseTxn (some "cleared")).1
        (mark_success baseEnv baseDB baseTxn (some "cleared")).2
        (some "cleared") =
      mark_success baseEnv baseDB baseTxn (some "cleared") ∧
     countPaymentEntries (mark_success baseEnv
        (mark_success baseEnv baseDB baseTxn (some "cleared")).1
        (mark_success baseEnv baseDB baseTxn (some "cleared")).2
        (some "cleared")).1 "T1" ≤ 1 ∧
     countSentEmails (mark_success baseEnv
        (mark_success baseEnv baseDB baseTxn (some "cleared")).1
        (mark_success baseEnv baseDB baseTxn (some "cleared")).2
        (some "cleared")).1 "T1" ≤ 1) :=
  ⟨by decide, by decide,
    (mark_success_idempotent baseEnv baseDB baseTxn (some "cleared")).1,
    (mark_success_idempotent baseEnv baseDB baseTxn (some "cleared")).2.1
      (by decide),
    (mark_success_idempotent baseEnv baseDB baseTxn (some "cleared")).2.2
      (by decide)⟩


end Payments
